import Mathlib

/-!
Verification development for the image-to-song recommendation pipeline.

The definitions below are a shallow embedding of the mood-fusion and
recommendation code of the repository:
- `backend/app/routers/recommendations.py` (search-query building, candidate
  aggregation, ranking, diversified selection, local fallback),
- `backend/app/routers/quiz.py` (taste-profile calculation),
- `backend/app/data/quiz_songs.py` (the curated quiz-song catalog),
- `app/services/enhanced_mood_service.py` (text mood scoring, mood fusion,
  audio-feature synthesis).

Modelling conventions: Python floats are modelled as exact rationals, Python
dicts that are built by insertion are modelled as association lists in
insertion order, `random` draws are passed in explicitly as parameters, and
Python string operations are modelled character-wise (ASCII).
-/

namespace ImageToSong

/-! ## String utilities -/

/-- Python `pat in s` substring test, modelled on the character list. -/
def strContains (s pat : String) : Bool :=
  s.toList.tails.any (fun t => pat.toList.isPrefixOf t)

/-- ASCII lower-casing of a single character, as Python `str.lower` does on
ASCII input. -/
def lowerChar (c : Char) : Char :=
  if 'A' ≤ c ∧ c ≤ 'Z' then Char.ofNat (c.toNat + 32) else c

/-- ASCII lower-casing of a string, as Python `str.lower`. -/
def lowerStr (s : String) : String := ⟨s.toList.map lowerChar⟩

/-- Parse a run of decimal digits; `none` on empty input or any non-digit,
matching `int(...)` raising `ValueError`. -/
def digitsToNat : List Char → Option Nat
  | [] => none
  | cs =>
    cs.foldl
      (fun acc c =>
        match acc with
        | none => none
        | some n => if c.isDigit then some (n * 10 + (c.toNat - 48)) else none)
      (some 0)

/-- Python `int(release_date[:4])` wrapped in try/except: take the first four
characters and parse them as a (nonnegative) integer, `none` on failure. -/
def yearOfReleaseDate (s : String) : Option Nat :=
  digitsToNat (s.toList.take 4)

/-- Association-list lookup on string keys, first binding wins
(Python dict access). -/
def lookupStr {α : Type} : List (String × α) → String → Option α
  | [], _ => none
  | (k, v) :: rest, key => if k = key then some v else lookupStr rest key

/-! ## `enhanced_mood_service.py`: data model -/

/-- Spotify-style audio-feature vector (`base_features` dicts in
`EnhancedMoodAnalyzer.__init__` and the output of
`_mood_to_spotify_features`). -/
structure AudioFeatures where
  valence : ℚ
  energy : ℚ
  danceability : ℚ
  acousticness : ℚ
  instrumentalness : ℚ
  speechiness : ℚ
  tempo : ℚ
  deriving DecidableEq

/-- One entry of `EnhancedMoodAnalyzer.mood_categories`: the mood name, its
keyword list (in source order, duplicates kept) and its base audio features.
The `colors` and `objects` lists of the source dict are read by no function
modelled here and are omitted. -/
structure MoodCategory where
  name : String
  keywords : List String
  base_features : AudioFeatures
  deriving DecidableEq

/-- The `mood_categories` table of `EnhancedMoodAnalyzer.__init__`, in dict
insertion order.  Note that the `romantic` keyword list contains the word
`"romantic"` twice, exactly as in the source. -/
def mood_categories : List MoodCategory :=
  [ { name := "happy",
      keywords := ["happy", "joy", "smile", "celebration", "party", "fun",
                   "bright", "cheerful", "excited", "laughter"],
      base_features :=
        { valence := 8/10, energy := 7/10, danceability := 7/10,
          acousticness := 3/10, instrumentalness := 3/10,
          speechiness := 1/10, tempo := 130 } },
    { name := "peaceful",
      keywords := ["calm", "peaceful", "quiet", "serene", "relaxing",
                   "tranquil", "meditation", "zen"],
      base_features :=
        { valence := 6/10, energy := 3/10, danceability := 3/10,
          acousticness := 8/10, instrumentalness := 6/10,
          speechiness := 1/10, tempo := 80 } },
    { name := "melancholic",
      keywords := ["sad", "dark", "lonely", "rain", "gray", "melancholy",
                   "depressed", "gloomy"],
      base_features :=
        { valence := 2/10, energy := 4/10, danceability := 3/10,
          acousticness := 6/10, instrumentalness := 4/10,
          speechiness := 1/10, tempo := 70 } },
    { name := "energetic",
      keywords := ["energy", "action", "sports", "running", "dancing",
                   "workout", "active", "dynamic"],
      base_features :=
        { valence := 7/10, energy := 9/10, danceability := 8/10,
          acousticness := 2/10, instrumentalness := 2/10,
          speechiness := 1/10, tempo := 140 } },
    { name := "romantic",
      keywords := ["love", "romantic", "couple", "kiss", "romantic",
                   "intimate", "tender"],
      base_features :=
        { valence := 7/10, energy := 4/10, danceability := 4/10,
          acousticness := 5/10, instrumentalness := 3/10,
          speechiness := 1/10, tempo := 90 } },
    { name := "nature",
      keywords := ["nature", "outdoor", "forest", "mountain", "beach",
                   "ocean", "trees", "landscape"],
      base_features :=
        { valence := 6/10, energy := 5/10, danceability := 4/10,
          acousticness := 7/10, instrumentalness := 5/10,
          speechiness := 1/10, tempo := 100 } },
    { name := "mysterious",
      keywords := ["dark", "shadow", "mystery", "night", "mysterious",
                   "unknown", "gothic"],
      base_features :=
        { valence := 3/10, energy := 6/10, danceability := 5/10,
          acousticness := 4/10, instrumentalness := 6/10,
          speechiness := 1/10, tempo := 110 } } ]

/-- The neutral default feature vector used by `_mood_to_spotify_features`
both as the fallback base and as the blending target. -/
def neutral_features : AudioFeatures :=
  { valence := 5/10, energy := 5/10, danceability := 5/10,
    acousticness := 5/10, instrumentalness := 3/10,
    speechiness := 1/10, tempo := 120 }

/-- A (primary mood, confidence) result, the part of the per-analyzer result
dicts that the fusion engine consumes. -/
structure MoodResult where
  primaryMood : String
  confidence : ℚ
  deriving DecidableEq

/-! ## `_analyze_text_mood` -/

/-- Number of entries of the keyword list (with multiplicity) that occur as
substrings of the caption; the `score` accumulated by the keyword loop of
`_analyze_text_mood`. -/
def keywordScore (caption : String) (kws : List String) : Nat :=
  (kws.filter (fun kw => strContains caption kw)).length

/-- The per-mood `confidence` stored by `_analyze_text_mood`:
`min(score / len(keywords), 1.0)`. -/
def textConfOf (caption : String) (c : MoodCategory) : ℚ :=
  min ((keywordScore caption c.keywords : ℚ) / c.keywords.length) 1

/-- The `mood_scores` rows of `_analyze_text_mood`:
(mood name, raw score, confidence), in table order. -/
def textScores (caption : String) : List (String × Nat × ℚ) :=
  mood_categories.map
    (fun c => (c.name, keywordScore caption c.keywords, textConfOf caption c))

/-- Python `max(items, key=score)`: scan left to right, replace the current
best only on a strictly larger score, so the first maximal item wins. -/
def bestByScore : (String × Nat × ℚ) → List (String × Nat × ℚ) → (String × Nat × ℚ)
  | best, [] => best
  | best, x :: xs => bestByScore (if best.2.1 < x.2.1 then x else best) xs

/-- The result of `_analyze_text_mood`: the mood with the highest raw keyword
score (first in table order on ties) with its stored confidence, or
`("neutral", 0.1)` when every score is zero. -/
def analyze_text_mood (caption : String) : MoodResult :=
  match textScores caption with
  | [] => { primaryMood := "neutral", confidence := 1/10 }
  | x :: xs =>
    let best := bestByScore x xs
    if 0 < best.2.1 then
      { primaryMood := best.1, confidence := best.2.2 }
    else
      { primaryMood := "neutral", confidence := 1/10 }

/-! ## `_combine_mood_analyses` -/

/-- Add a weighted vote to the `mood_candidates` dict: accumulate on an
existing key, otherwise append a new binding. -/
def addCand (cands : List (String × ℚ)) (m : String) (v : ℚ) : List (String × ℚ) :=
  match cands with
  | [] => [(m, v)]
  | (k, w) :: rest =>
    if k = m then (k, w + v) :: rest else (k, w) :: addCand rest m v

/-- Python `max(candidates.items(), key=value)`: first maximal binding wins. -/
def bestCand : (String × ℚ) → List (String × ℚ) → (String × ℚ)
  | best, [] => best
  | best, x :: xs => bestCand (if best.2 < x.2 then x else best) xs

/-- The fusion engine `_combine_mood_analyses`: weight text 0.5, color 0.3,
scene 0.2, skip neutral signals, take the best accumulated candidate capped at
confidence 1, and default to `("peaceful", 0.2)` when no candidate exists. -/
def combine_mood_analyses (text color scene : MoodResult) : MoodResult :=
  let cands1 : List (String × ℚ) :=
    if text.primaryMood = "neutral" then []
    else addCand [] text.primaryMood (text.confidence * (5/10))
  let cands2 : List (String × ℚ) :=
    if color.primaryMood = "neutral" then cands1
    else addCand cands1 color.primaryMood (color.confidence * (3/10))
  let cands3 : List (String × ℚ) :=
    if scene.primaryMood = "neutral" then cands2
    else addCand cands2 scene.primaryMood (scene.confidence * (2/10))
  match cands3 with
  | [] => { primaryMood := "peaceful", confidence := 2/10 }
  | x :: xs =>
    let best := bestCand x xs
    { primaryMood := best.1, confidence := min best.2 1 }

/-! ## `_mood_to_spotify_features` -/

/-- Base feature lookup of `_mood_to_spotify_features`: the mood category
table row, or the neutral default for unknown moods. -/
def baseFeaturesFor (mood : String) : AudioFeatures :=
  match mood_categories.find? (fun c => c.name = mood) with
  | some c => c.base_features
  | none => neutral_features

/-- Confidence blending of one feature toward its neutral value:
`value * confidence + neutral * (1 - confidence)`. -/
def blendFeature (confidence value neutralValue : ℚ) : ℚ :=
  value * confidence + neutralValue * (1 - confidence)

/-- Python `max(0.0, min(1.0, x))`. -/
def clamp01 (x : ℚ) : ℚ := max 0 (min 1 x)

/-- One concrete draw of the random jitter applied by
`_mood_to_spotify_features`; the source draws each component from
`random.uniform`, here the draw is passed in explicitly. -/
structure Jitter where
  valence : ℚ
  energy : ℚ
  danceability : ℚ
  acousticness : ℚ
  instrumentalness : ℚ
  tempo : ℚ
  deriving DecidableEq

/-- The synthesizer `_mood_to_spotify_features`: blend the base vector of the
mood toward neutral by inverse confidence, then add the jitter draw to the
five listed features (clamped to [0,1]) and to the tempo (clamped to
[60,200]).  `speechiness` is not in the jittered feature list. -/
def mood_to_spotify_features (mood : String) (confidence : ℚ) (j : Jitter) :
    AudioFeatures :=
  let base := baseFeaturesFor mood
  let blended : AudioFeatures :=
    { valence := blendFeature confidence base.valence neutral_features.valence,
      energy := blendFeature confidence base.energy neutral_features.energy,
      danceability :=
        blendFeature confidence base.danceability neutral_features.danceability,
      acousticness :=
        blendFeature confidence base.acousticness neutral_features.acousticness,
      instrumentalness :=
        blendFeature confidence base.instrumentalness
          neutral_features.instrumentalness,
      speechiness :=
        blendFeature confidence base.speechiness neutral_features.speechiness,
      tempo := blendFeature confidence base.tempo neutral_features.tempo }
  { blended with
    valence := clamp01 (blended.valence + j.valence),
    energy := clamp01 (blended.energy + j.energy),
    danceability := clamp01 (blended.danceability + j.danceability),
    acousticness := clamp01 (blended.acousticness + j.acousticness),
    instrumentalness := clamp01 (blended.instrumentalness + j.instrumentalness),
    tempo := max 60 (min 200 (blended.tempo + j.tempo)) }

/-! ## `recommendations.py`: track data model -/

/-- A candidate track as built by the aggregation loops of
`recommendations.py` (union of the dict shapes of `get_recommendations` and
`analyze_and_recommend`): catalog id, title, artist, album, popularity,
duration, explicit flag, raw release-date string, and the origin tag
(`search_type` / `query_used`) recording which query produced it. -/
structure Track where
  id : String
  title : String
  artist : String
  album : String
  popularity : ℤ
  duration_ms : ℤ
  explicit : Bool
  release_date : String
  search_type : String
  deriving DecidableEq

/-! ## Deduplication by track id (first occurrence wins) -/

/-- Worker for the dedup pass of `_diversified_track_selection`: `seen` is the
set of ids already emitted. -/
def dedupByIdAux : List Track → List String → List Track
  | [], _ => []
  | t :: ts, seen =>
    if t.id ∈ seen then dedupByIdAux ts seen
    else t :: dedupByIdAux ts (t.id :: seen)

/-- The `seen_ids` dedup pass of `_diversified_track_selection`: keep only the
first track carrying each id. -/
def dedupById (ts : List Track) : List Track := dedupByIdAux ts []

/-- The inline dedup of the aggregation loop of `analyze_and_recommend`:
append a track only when no already-collected track has its id. -/
def aggregateDedup (ts : List Track) : List Track :=
  ts.foldl
    (fun acc t => if acc.any (fun u => u.id = t.id) then acc else acc ++ [t])
    []

/-! ## `_diversified_track_selection` -/

/-- Append a track to its `search_type` group, creating the group at the end
on first sight (Python dict insertion order). -/
def insertGroup (groups : List (String × List Track)) (key : String)
    (t : Track) : List (String × List Track) :=
  match groups with
  | [] => [(key, [t])]
  | (k, ts) :: rest =>
    if k = key then (k, ts ++ [t]) :: rest
    else (k, ts) :: insertGroup rest key t

/-- The `search_type_groups` dict of `_diversified_track_selection`, built by
scanning the deduplicated tracks in order. -/
def groupBySearchType (ts : List Track) : List (String × List Track) :=
  ts.foldl (fun gs t => insertGroup gs t.search_type t) []

/-- All tracks currently held by the groups, in group order. -/
def groupTracks (groups : List (String × List Track)) : List Track :=
  groups.foldr (fun g acc => g.2 ++ acc) []

/-- Replace the track list of the group with the given key. -/
def setGroup (groups : List (String × List Track)) (key : String)
    (v : List Track) : List (String × List Track) :=
  match groups with
  | [] => []
  | (k, ts) :: rest =>
    if k = key then (k, v) :: rest else (k, ts) :: setGroup rest key v

/-- Number of selected tracks whose lower-cased artist equals `a` (`a` is
already lower-cased), as counted inside `_diversified_track_selection`. -/
def artistCount (final : List Track) (a : String) : Nat :=
  (final.filter (fun t => lowerStr t.artist = a)).length

/-- The inner `for track in tracks_for_type` scan: find the first candidate
whose artist has been used fewer than `max_per_artist = 2` times, returning it
together with the group list with that candidate removed. -/
def pickEligible (final : List Track) : List Track → Option (Track × List Track)
  | [] => none
  | t :: ts =>
    if artistCount final (lowerStr t.artist) < 2 then some (t, ts)
    else
      match pickEligible final ts with
      | some (u, rest) => some (u, t :: rest)
      | none => none

/-- One test of the `while` guard of `_diversified_track_selection`:
fewer than 8 selected and some group still holds tracks. -/
def rrGuard (groups : List (String × List Track)) (final : List Track) : Bool :=
  decide (final.length < 8) && groups.any (fun g => !g.2.isEmpty)

/-- One iteration body of the round-robin `while` loop of
`_diversified_track_selection`: visit group `keys[idx % len(keys)]`, append
its first artist-eligible candidate to the selection (removing it from the
group), or mark the group exhausted when none of its candidates is eligible;
returns the updated groups and selection. -/
def rrStep (keys : List String) (groups : List (String × List Track))
    (final : List Track) (idx : Nat) :
    List (String × List Track) × List Track :=
  let key := keys.getD (idx % keys.length) ""
  let ts := (lookupStr groups key).getD []
  match pickEligible final ts with
  | some (t, rest) => (setGroup groups key rest, final ++ [t])
  | none => (setGroup groups key [], final)

/-- The round-robin `while` loop of `_diversified_track_selection`, with the
iteration count made explicit as fuel. -/
def rrLoop (keys : List String) :
    Nat → List (String × List Track) → List Track → Nat → List Track
  | 0, _, final, _ => final
  | fuel + 1, groups, final, idx =>
    if rrGuard groups final then
      rrLoop keys fuel (rrStep keys groups final idx).1
        (rrStep keys groups final idx).2 (idx + 1)
    else final

/-- Stable descending insertion by key: the new element goes in front of the
first element with a key not larger than its own, so elements with equal keys
keep their original relative order. -/
def insertDescBy {α : Type} (key : α → ℚ) (x : α) : List α → List α
  | [] => [x]
  | y :: ys =>
    if key y ≤ key x then x :: y :: ys else y :: insertDescBy key x ys

/-- Stable descending sort by key, modelling Python
`list.sort(key=..., reverse=True)`. -/
def sortDescBy {α : Type} (key : α → ℚ) : List α → List α
  | [] => []
  | x :: xs => insertDescBy key x (sortDescBy key xs)

/-- The full `_diversified_track_selection`: dedup by id, group by
`search_type`, round-robin with the per-artist cap, sort the selection by
popularity descending, return at most 8 tracks.  The fuel passed to the loop
strictly dominates the number of iterations the Python `while` loop can make
before its guard fails. -/
def diversified_track_selection (all_tracks : List Track) : List Track :=
  if all_tracks.isEmpty then []
  else
    let unique := dedupById all_tracks
    let groups := groupBySearchType unique
    let keys := groups.map Prod.fst
    let fuel := (unique.length + groups.length + 9) * (groups.length + 1)
    let final := rrLoop keys fuel groups [] 0
    (sortDescBy (fun t => (t.popularity : ℚ)) final).take 8

/-! ## `_rank_songs_by_characteristics` (routers/recommendations.py) -/

/-- One row of the `mood_preferences` policy table. -/
structure RankPrefs where
  min_popularity : ℤ
  prefer_recent : Bool
  avoid_explicit : Bool
  duration_lo : ℤ
  duration_hi : ℤ
  deriving DecidableEq

/-- The `mood_preferences` table of `_rank_songs_by_characteristics` in
`routers/recommendations.py`. -/
def mood_preferences : List (String × RankPrefs) :=
  [ ("happy",
     { min_popularity := 50, prefer_recent := true, avoid_explicit := true,
       duration_lo := 120000, duration_hi := 300000 }),
    ("melancholic",
     { min_popularity := 40, prefer_recent := false, avoid_explicit := false,
       duration_lo := 180000, duration_hi := 360000 }),
    ("energetic",
     { min_popularity := 60, prefer_recent := true, avoid_explicit := false,
       duration_lo := 150000, duration_hi := 300000 }),
    ("peaceful",
     { min_popularity := 45, prefer_recent := false, avoid_explicit := true,
       duration_lo := 180000, duration_hi := 420000 }),
    ("romantic",
     { min_popularity := 50, prefer_recent := false, avoid_explicit := true,
       duration_lo := 200000, duration_hi := 360000 }) ]

/-- Policy row selection `mood_preferences.get(mood, mood_preferences["happy"])`. -/
def prefsFor (mood : String) : RankPrefs :=
  (lookupStr mood_preferences mood).getD
    { min_popularity := 50, prefer_recent := true, avoid_explicit := true,
      duration_lo := 120000, duration_hi := 300000 }

/-- The popularity term of the score: full credit at or above the policy
minimum (capped at 60), partial credit from 30 up, and a 20-point penalty
below that. -/
def popularityTerm (p : RankPrefs) (t : Track) : ℚ :=
  if p.min_popularity ≤ t.popularity then
    min ((t.popularity : ℚ) * (6/10)) 60
  else if (30 : ℤ) ≤ t.popularity then (t.popularity : ℚ) * (3/10)
  else -20

/-- The duration term: 20 inside the policy range, 10 for any positive
duration, 0 otherwise. -/
def durationTerm (p : RankPrefs) (t : Track) : ℚ :=
  if p.duration_lo ≤ t.duration_ms ∧ t.duration_ms ≤ p.duration_hi then 20
  else if 0 < t.duration_ms then 10
  else 0

/-- The explicit-content penalty: -15 when the policy avoids explicit tracks
and the track is explicit. -/
def explicitTerm (p : RankPrefs) (t : Track) : ℚ :=
  if p.avoid_explicit && t.explicit then -15 else 0

/-- The recency bonus: with `prefer_recent` and a nonempty release date whose
leading four characters parse as a year, +15 for 2020 and later, +8 for
2015-2019. -/
def recencyTerm (p : RankPrefs) (t : Track) : ℚ :=
  if p.prefer_recent && !(t.release_date = "") then
    match yearOfReleaseDate t.release_date with
    | some y => if 2020 ≤ y then 15 else if 2015 ≤ y then 8 else 0
    | none => 0
  else 0

/-- The total score a track receives in `_rank_songs_by_characteristics`
(`routers/recommendations.py` version: popularity, duration, explicit and
recency terms only). -/
def ranking_score (mood : String) (t : Track) : ℚ :=
  let p := prefsFor mood
  popularityTerm p t + durationTerm p t + explicitTerm p t + recencyTerm p t

/-- The ranked output: each track paired with its score, sorted by score
descending (Python `list.sort` is stable). -/
def rank_songs_by_characteristics (tracks : List Track) (mood : String) :
    List (ℚ × Track) :=
  sortDescBy (fun st => st.1) (tracks.map (fun t => (ranking_score mood t, t)))

/-! ## `_build_search_parameters` and `_is_genre_mood_compatible` -/

/-- The `scene_based_strategies` table of `_build_search_parameters`. -/
def scene_based_strategies : List (String × List String) :=
  [ ("happy",
     ["genre:pop", "genre:dance-pop", "pop cheerful",
      "feel good hits", "upbeat popular", "sunny pop"]),
    ("peaceful",
     ["genre:folk", "genre:acoustic", "peaceful indie",
      "calm acoustic", "folk popular", "nature acoustic"]),
    ("energetic",
     ["genre:rock", "genre:electronic", "genre:dance",
      "high energy hits", "workout popular", "rock anthems"]),
    ("melancholic",
     ["genre:alternative", "genre:indie-rock", "emotional indie",
      "sad alternative", "melancholic popular", "introspective hits"]),
    ("romantic",
     ["genre:pop", "genre:r-n-b", "genre:acoustic",
      "love song hits", "romantic popular", "soul ballads"]),
    ("nature",
     ["genre:folk", "genre:indie-folk", "acoustic nature",
      "folk popular", "organic acoustic", "nature indie"]) ]

/-- The genre-mood `compatibility` matrix of `_is_genre_mood_compatible`. -/
def genre_mood_compatibility : List (String × List String) :=
  [ ("peaceful", ["folk", "acoustic", "indie", "ambient", "jazz",
                  "classical", "new age"]),
    ("nature", ["folk", "acoustic", "indie-folk", "world", "ambient",
                "country"]),
    ("melancholic", ["indie", "alternative", "folk", "acoustic", "blues",
                     "ambient"]),
    ("romantic", ["r&b", "soul", "acoustic", "jazz", "indie", "pop"]),
    ("happy", ["pop", "indie", "funk", "dance", "electronic", "reggae"]),
    ("energetic", ["rock", "electronic", "hip-hop", "dance", "punk",
                   "metal"]) ]

/-- `_is_genre_mood_compatible`: some compatible genre of the mood occurs as a
substring of the lower-cased user genre. -/
def is_genre_mood_compatible (genre mood : String) : Bool :=
  ((lookupStr genre_mood_compatibility mood).getD []).any
    (fun comp => strContains (lowerStr genre) comp)

/-- The `mood_specific_queries` table of `_build_search_parameters`. -/
def mood_specific_queries : List (String × List String) :=
  [ ("peaceful", ["acoustic popular", "folk hits"]),
    ("melancholic", ["alternative popular", "indie emotional"]),
    ("happy", ["pop hits", "feel good popular"]),
    ("energetic", ["rock popular", "electronic hits"]),
    ("romantic", ["love song hits", "r&b popular"]) ]

/-- The user-genre step of `_build_search_parameters`: rank the genre
preferences by score descending (stable), keep the top 3, then append at most
one `genre:<g>` query, for the first genre scoring above 0.5 that is
compatible with the mood. -/
def pickUserGenre (mood : String) (genre_prefs : List (String × ℚ)) :
    Option String :=
  ((sortDescBy (fun gp => gp.2) genre_prefs).take 3).find?
      (fun gp => decide ((1:ℚ)/2 < gp.2) && is_genre_mood_compatible gp.1 mood)
    |>.map (fun gp => "genre:" ++ gp.1)

/-- The result of `_build_search_parameters`: the query list and the strategy
label (the `scene_context` dict only echoes the inputs back). -/
structure SearchParams where
  queries : List String
  strategy : String
  deriving DecidableEq

/-- `_build_search_parameters`: 4 scene-based queries for the mood (happy row
for unknown moods), at most one compatible user-genre query when genre
preferences are present, then the mood-specific popular queries
(`["popular music"]` for moods outside that table), truncated to 7.  The
caption argument is only echoed back inside the `scene_context` dict in the
source and influences nothing modelled here. -/
def build_search_parameters (mood caption : String)
    (genre_prefs : List (String × ℚ)) : SearchParams :=
  let scene_searches :=
    (lookupStr scene_based_strategies mood).getD
      ["genre:pop", "genre:dance-pop", "pop cheerful",
       "feel good hits", "upbeat popular", "sunny pop"]
  let base := scene_searches.take 4
  let userPart : List String :=
    if genre_prefs.isEmpty then []
    else
      match pickUserGenre mood genre_prefs with
      | some q => [q]
      | none => []
  let strategy :=
    if genre_prefs.isEmpty then "pure_scene_based"
    else "scene_dominated_personalized"
  let specific := (lookupStr mood_specific_queries mood).getD ["popular music"]
  { queries := (base ++ userPart ++ specific.take 2).take 7,
    strategy := strategy }

/-! ## `quiz_songs.py`: the curated catalog -/

/-- Audio features stored for each quiz song. -/
structure QuizAudioFeatures where
  danceability : ℚ
  energy : ℚ
  valence : ℚ
  acousticness : ℚ
  instrumentalness : ℚ
  tempo : ℚ
  loudness : ℚ
  deriving DecidableEq

/-- One entry of `QUIZ_SONGS`.  The `preview_url` and `album_cover` fields of
the source are opaque placeholder URLs read by no computation modelled here
and are omitted. -/
structure QuizSong where
  id : String
  title : String
  artist : String
  album : String
  genres : List String
  audio_features : QuizAudioFeatures
  deriving DecidableEq

/-- The `QUIZ_SONGS` table of `backend/app/data/quiz_songs.py` (all 20
entries, in order; decimals written as exact rationals). -/
def quiz_songs : List QuizSong :=
  [ { id := "4uLU6hMCjMI75M1A2tKUQC", title := "Anti-Hero", artist := "Taylor Swift",
      album := "Midnights", genres := ["pop", "indie pop"],
      audio_features :=
        { danceability := 579/1000, energy := 513/1000, valence := 321/1000,
          acousticness := 257/1000, instrumentalness := 1/1000000,
          tempo := 96881/1000, loudness := -(43/5) } },
    { id := "1BxfuPKGuaTgP7aM0Bbdwr", title := "Cruel Summer", artist := "Taylor Swift",
      album := "Lover", genres := ["pop", "synth-pop"],
      audio_features :=
        { danceability := 69/125, energy := 351/500, valence := 141/250,
          acousticness := 117/1000, instrumentalness := 3/31250,
          tempo := 84997/500, loudness := -(5707/1000) } },
    { id := "4Dvkj6JhhA12EX05fT7y2e", title := "As It Was", artist := "Harry Styles",
      album := "Harry\x27s House", genres := ["pop", "art pop"],
      audio_features :=
        { danceability := 137/200, energy := 549/1000, valence := 359/1000,
          acousticness := 361/1000, instrumentalness := 3/1000000,
          tempo := 108009/1000, loudness := -(7667/1000) } },
    { id := "7qiZfU4dY1lWllzX7mPBI3", title := "Shape of You", artist := "Ed Sheeran",
      album := "÷ (Divide)", genres := ["pop", "dance pop"],
      audio_features :=
        { danceability := 33/40, energy := 163/250, valence := 931/1000,
          acousticness := 581/1000, instrumentalness := 1/500000,
          tempo := 95977/1000, loudness := -(3183/1000) } },
    { id := "0VjIjW4GlULA4LGy1nby9d", title := "Bohemian Rhapsody", artist := "Queen",
      album := "A Night at the Opera", genres := ["rock", "classic rock"],
      audio_features :=
        { danceability := 99/200, energy := 309/500, valence := 579/1000,
          acousticness := 213/1000, instrumentalness := 1/1000,
          tempo := 144077/1000, loudness := -(1647/200) } },
    { id := "4VqPOruhp5EdPBeR92t6lQ", title := "Stairway to Heaven", artist := "Led Zeppelin",
      album := "Led Zeppelin IV", genres := ["rock", "hard rock"],
      audio_features :=
        { danceability := 189/500, energy := 541/1000, valence := 223/500,
          acousticness := 309/1000, instrumentalness := 137/500,
          tempo := 16399/200, loudness := -(14123/1000) } },
    { id := "0JiV5NKJP0vC8hOJKWMJ7y", title := "Don\x27t Stop Believin\x27", artist := "Journey",
      album := "Escape", genres := ["rock", "arena rock"],
      audio_features :=
        { danceability := 563/1000, energy := 92/125, valence := 899/1000,
          acousticness := 131/100000, instrumentalness := 7/500000,
          tempo := 119069/1000, loudness := -(6011/1000) } },
    { id := "6DCZcSspjsKoFjzjrWoCdn", title := "God\x27s Plan", artist := "Drake",
      album := "Scorpion", genres := ["hip hop", "pop rap"],
      audio_features :=
        { danceability := 377/500, energy := 449/1000, valence := 357/1000,
          acousticness := 137/20000, instrumentalness := 1/1000000,
          tempo := 77169/1000, loudness := -(9211/1000) } },
    { id := "7ouMYWpwJ422jRcDASZB7P", title := "HUMBLE.", artist := "Kendrick Lamar",
      album := "DAMN.", genres := ["hip hop", "conscious rap"],
      audio_features :=
        { danceability := 113/125, energy := 621/1000, valence := 421/1000,
          acousticness := 137/250000, instrumentalness := 3/125000,
          tempo := 7501/50, loudness := -(3421/500) } },
    { id := "5W3cjX2J3tjhG8zb6u0qHn", title := "Old Town Road", artist := "Lil Nas X",
      album := "7 EP", genres := ["hip hop", "country rap"],
      audio_features :=
        { danceability := 219/250, energy := 111/200, valence := 687/1000,
          acousticness := 33/250, instrumentalness := 3/1000000,
          tempo := 136041/1000, loudness := -(8871/1000) } },
    { id := "4Y7KDMX07MCuZo10LPW60s", title := "Clarity", artist := "Zedd",
      album := "Clarity", genres := ["electronic", "progressive house"],
      audio_features :=
        { danceability := 473/1000, energy := 793/1000, valence := 197/500,
          acousticness := 117/500000, instrumentalness := 1/1000000,
          tempo := 64013/500, loudness := -(4669/1000) } },
    { id := "1vYXt7VSjH9JIM5oewBZNF", title := "Midnight City", artist := "M83",
      album := "Hurry Up, We\x27re Dreaming", genres := ["electronic", "synthwave"],
      audio_features :=
        { danceability := 511/1000, energy := 789/1000, valence := 749/1000,
          acousticness := 69/1000000, instrumentalness := 893/1000,
          tempo := 13112/125, loudness := -(3199/500) } },
    { id := "2Z8WuEywRWYTKe1NybPQEW", title := "Somebody That I Used to Know", artist := "Gotye",
      album := "Making Mirrors", genres := ["indie", "alternative"],
      audio_features :=
        { danceability := 171/250, energy := 449/1000, valence := 17/40,
          acousticness := 51/500, instrumentalness := 63/1000000,
          tempo := 64937/500, loudness := -(7883/1000) } },
    { id := "0VE4kBnHJEhHWW8nnB2OAJ", title := "Young Folks", artist := "Peter Bjorn and John",
      album := "Writer\x27s Block", genres := ["indie", "indie pop"],
      audio_features :=
        { danceability := 91/125, energy := 89/125, valence := 819/1000,
          acousticness := 93/500, instrumentalness := 21/200,
          tempo := 120047/1000, loudness := -(1379/200) } },
    { id := "7dt6x5M1jzdTEt8oCbisTK", title := "Redbone", artist := "Childish Gambino",
      album := "Awaken, My Love!", genres := ["r&b", "funk"],
      audio_features :=
        { danceability := 369/500, energy := 69/200, valence := 467/1000,
          acousticness := 423/1000, instrumentalness := 17/1000000,
          tempo := 19848/125, loudness := -(7279/500) } },
    { id := "4rXVn5n57hCcKXJ5ZQeaB9", title := "Blinding Lights", artist := "The Weeknd",
      album := "After Hours", genres := ["r&b", "synthwave"],
      audio_features :=
        { danceability := 257/500, energy := 73/100, valence := 167/500,
          acousticness := 73/50000, instrumentalness := 1/500000,
          tempo := 171009/1000, loudness := -(2967/500) } },
    { id := "1Je1IMUlBXcx1Fz0WE7oPT", title := "Cruise", artist := "Florida Georgia Line",
      album := "Here\x27s to the Good Times", genres := ["country", "country pop"],
      audio_features :=
        { danceability := 81/125, energy := 693/1000, valence := 959/1000,
          acousticness := 851/10000, instrumentalness := 0,
          tempo := 120043/1000, loudness := -(4359/1000) } },
    { id := "1zHlj4dQ8ZAtrayhuDDmkY", title := "Need You Now", artist := "Lady Antebellum",
      album := "Need You Now", genres := ["country", "country pop"],
      audio_features :=
        { danceability := 567/1000, energy := 253/500, valence := 71/250,
          acousticness := 93/250, instrumentalness := 0,
          tempo := 132013/1000, loudness := -(1593/200) } },
    { id := "7GhIk7Il098yCjg4BQjzvb", title := "Radioactive", artist := "Imagine Dragons",
      album := "Night Visions", genres := ["alternative", "rock"],
      audio_features :=
        { danceability := 593/1000, energy := 867/1000, valence := 167/500,
          acousticness := 81/1000000, instrumentalness := 1/500000,
          tempo := 3401/25, loudness := -(558/125) } },
    { id := "1mea3bSkSGXuIRvnydlB5b", title := "Pumped Up Kicks", artist := "Foster the People",
      album := "Torches", genres := ["alternative", "indie pop"],
      audio_features :=
        { danceability := 703/1000, energy := 311/500, valence := 343/500,
          acousticness := 11/1000, instrumentalness := 21/200000,
          tempo := 127851/1000, loudness := -(3479/500) } } ]

/-! ## `_get_fallback_recommendations` (the /recommendations response
when no Spotify token can be obtained) -/

/-- One recommendation dict built by `_get_fallback_recommendations`
(quiz-song fields plus the hard-coded popularity 75, duration 180000 and
explicit false). -/
structure FallbackRec where
  id : String
  title : String
  artist : String
  album : String
  popularity : ℤ
  duration_ms : ℤ
  explicit : Bool
  deriving DecidableEq

/-- Projection of a quiz song to a fallback recommendation dict. -/
def fallbackRecOfSong (s : QuizSong) : FallbackRec :=
  { id := s.id, title := s.title, artist := s.artist, album := s.album,
    popularity := 75, duration_ms := 180000, explicit := false }

/-- The `mood_song_count` table inside `_get_fallback_recommendations`. -/
def fallback_mood_song_count : List (String × Nat) :=
  [("happy", 4), ("energetic", 4), ("peaceful", 3), ("melancholic", 3),
   ("romantic", 3), ("nature", 3)]

/-- The full /recommendations fallback response. -/
structure FallbackResponse where
  success : Bool
  mood : String
  recommendations : List FallbackRec
  search_strategy : String
  total_found : Nat
  personalized : Bool
  deriving DecidableEq

/-- `_get_fallback_recommendations(mood, user_profile)`: with genre
preferences present, keep the quiz songs carrying one of the genres scored
above 0.5; otherwise take a random sample of `min(count, len(QUIZ_SONGS))`
songs, modelled as the prefix of `deck`, an externally supplied shuffle of
the catalog.  The response caps the list at 6 and is tagged
`fallback_local`. -/
def get_fallback_recommendations (mood : String)
    (genre_prefs : List (String × ℚ)) (deck : List QuizSong) :
    FallbackResponse :=
  let mood_songs : List FallbackRec :=
    if genre_prefs.isEmpty then
      let count := (lookupStr fallback_mood_song_count mood).getD 4
      (deck.take (min count quiz_songs.length)).map fallbackRecOfSong
    else
      let top_genres :=
        (genre_prefs.filter (fun gp => decide ((1:ℚ)/2 < gp.2))).map Prod.fst
      (quiz_songs.filter
        (fun s => top_genres.any (fun g => s.genres.contains g))).map
        fallbackRecOfSong
  { success := true,
    mood := mood,
    recommendations := mood_songs.take 6,
    search_strategy := "fallback_local",
    total_found := mood_songs.length,
    personalized := !genre_prefs.isEmpty }

/-! ## Per-query aggregation of the /recommendations endpoint -/

/-- The fields the aggregation loop of `get_recommendations` reads from one
Spotify search item. -/
structure SpotifyItem where
  id : String
  name : String
  artist : String
  album : String
  popularity : ℤ
  duration_ms : ℤ
  explicit : Bool
  deriving DecidableEq

/-- The `limit` parameter sent with each catalog search request of
`get_recommendations`. -/
def searchLimit : Nat := 8

/-- The `track_data` dict built for one item: the origin tag is the first 20
characters of the query (`search_query[:20]`). -/
def trackOfItem (query : String) (it : SpotifyItem) : Track :=
  { id := it.id, title := it.name, artist := it.artist, album := it.album,
    popularity := it.popularity, duration_ms := it.duration_ms,
    explicit := it.explicit, release_date := "",
    search_type := ⟨query.toList.take 20⟩ }

/-- The `query_tracks` list one query adds to `all_tracks`: at most the first
4 items of that query, tagged with the query. -/
def queryContribution (qr : String × List SpotifyItem) : List Track :=
  (qr.2.take 4).map (trackOfItem qr.1)

/-- The `all_tracks` accumulation across all queries, in query order. -/
def aggregate_all_tracks (results : List (String × List SpotifyItem)) :
    List Track :=
  results.foldl (fun acc qr => acc ++ queryContribution qr) []

/-! ## `quiz.py`: genre-preference calculation -/

/-- The rating scan of `calculate_preferences`: resolve each
`(song_id, liked)` rating against `QUIZ_SONGS` (first match by id, unknown
ids silently skipped) and split into liked and disliked songs. -/
def likedAndDisliked (ratings : List (String × Bool)) :
    List QuizSong × List QuizSong :=
  ratings.foldl
    (fun ld r =>
      match quiz_songs.find? (fun s => s.id = r.1) with
      | some s => if r.2 then (ld.1 ++ [s], ld.2) else (ld.1, ld.2 ++ [s])
      | none => ld)
    ([], [])

/-- The `genre_scores` dict: +1 per genre of each liked song, -0.5 per genre
of each disliked song, accumulated in insertion order. -/
def genreScoresOf (liked disliked : List QuizSong) : List (String × ℚ) :=
  let s1 := liked.foldl
    (fun acc song => song.genres.foldl (fun a g => addCand a g 1) acc) []
  disliked.foldl
    (fun acc song => song.genres.foldl (fun a g => addCand a g (-(1/2))) acc)
    s1

/-- Python `max(values)` with the source default:
`max(genre_scores.values()) if genre_scores else 1.0`. -/
def maxVals : List ℚ → ℚ
  | [] => 1
  | x :: xs => xs.foldl max x

/-- The normalization step: `preference[g] = max(0, score[g] / max_score)`. -/
def genrePreferencesOf (scores : List (String × ℚ)) : List (String × ℚ) :=
  let m := maxVals (scores.map Prod.snd)
  scores.map (fun gs => (gs.1, max 0 (gs.2 / m)))

/-- The `genre_preferences` part of `calculate_preferences`. -/
def calculate_genre_preferences (ratings : List (String × Bool)) :
    List (String × ℚ) :=
  let ld := likedAndDisliked ratings
  genrePreferencesOf (genreScoresOf ld.1 ld.2)

/-! ## Deduplication lemmas -/

theorem dedupByIdAux_id_not_seen :
    ∀ (l : List Track) (seen : List String) (t : Track),
      t ∈ dedupByIdAux l seen → t.id ∉ seen := by
  intro l
  induction l with
  | nil => intro seen t ht; simp [dedupByIdAux] at ht
  | cons u us ih =>
    intro seen t ht
    by_cases hu : u.id ∈ seen
    · rw [dedupByIdAux, if_pos hu] at ht
      exact ih seen t ht
    · rw [dedupByIdAux, if_neg hu] at ht
      rcases List.mem_cons.mp ht with h | h
      · exact h ▸ hu
      · intro hts
        exact ih (u.id :: seen) t h (List.mem_cons_of_mem _ hts)

theorem dedupByIdAux_filter_eq (l : List Track) (seen : List String)
    (x : String) (hx : x ∉ seen) :
    (dedupByIdAux l seen).filter (fun t => t.id = x) =
      (l.find? (fun t => t.id = x)).toList := by
  induction l generalizing seen with
  | nil => simp [dedupByIdAux]
  | cons u us ih =>
    by_cases hu : u.id ∈ seen
    · have hne : ¬ (u.id = x) := fun h => hx (h ▸ hu)
      rw [dedupByIdAux, if_pos hu, ih seen hx,
        List.find?_cons_of_neg _ (by simpa using hne)]
    · rw [dedupByIdAux, if_neg hu]
      by_cases hux : u.id = x
      · subst hux
        rw [List.find?_cons_of_pos _ (by simp)]
        have hrest :
            (dedupByIdAux us (u.id :: seen)).filter (fun t => t.id = u.id) = [] := by
          apply List.filter_eq_nil_iff.mpr
          intro t ht
          have := dedupByIdAux_id_not_seen us (u.id :: seen) t ht
          simp only [decide_eq_true_eq]
          intro htx
          exact this (by simp [htx])
        simp [List.filter_cons, hrest]
      · rw [List.find?_cons_of_neg _ (by simpa using hux)]
        have hx2 : x ∉ u.id :: seen := by
          intro h
          rcases List.mem_cons.mp h with h | h
          · exact hux h.symm
          · exact hx h
        rw [← ih (u.id :: seen) hx2]
        simp [List.filter_cons, hux]

theorem dedupByIdAux_seen_congr (l : List Track) :
    ∀ (s₁ s₂ : List String), (∀ x, x ∈ s₁ ↔ x ∈ s₂) →
      dedupByIdAux l s₁ = dedupByIdAux l s₂ := by
  induction l with
  | nil => intro s₁ s₂ _; rfl
  | cons u us ih =>
    intro s₁ s₂ hs
    by_cases hu : u.id ∈ s₁
    · rw [dedupByIdAux, if_pos hu, dedupByIdAux, if_pos ((hs u.id).mp hu)]
      exact ih s₁ s₂ hs
    · rw [dedupByIdAux, if_neg hu, dedupByIdAux,
        if_neg (fun h => hu ((hs u.id).mpr h))]
      have : ∀ x, x ∈ u.id :: s₁ ↔ x ∈ u.id :: s₂ := by
        intro x; simp [hs x]
      rw [ih (u.id :: s₁) (u.id :: s₂) this]

theorem aggregateDedup_eq_dedupById (l : List Track) :
    aggregateDedup l = dedupById l := by
  have key : ∀ (l : List Track) (acc : List Track),
      l.foldl
        (fun acc t =>
          if acc.any (fun u => u.id = t.id) then acc else acc ++ [t]) acc =
      acc ++ dedupByIdAux l (acc.map Track.id) := by
    intro l
    induction l with
    | nil => intro acc; simp [dedupByIdAux]
    | cons t ts ih =>
      intro acc
      by_cases hmem : t.id ∈ acc.map Track.id
      · have hany : acc.any (fun u => u.id = t.id) = true := by
          rcases List.mem_map.mp hmem with ⟨u, hu, hid⟩
          exact List.any_eq_true.mpr ⟨u, hu, by simpa using hid⟩
        simp only [List.foldl_cons, hany, if_true]
        rw [ih acc, dedupByIdAux, if_pos hmem]
      · have hany : acc.any (fun u => u.id = t.id) = false := by
          rw [List.any_eq_false]
          intro u hu
          simp only [decide_eq_true_eq]
          intro hid
          exact hmem (List.mem_map.mpr ⟨u, hu, hid⟩)
        simp only [List.foldl_cons, hany, if_neg Bool.false_ne_true]
        rw [ih (acc ++ [t]), dedupByIdAux, if_neg hmem]
        have hcongr := dedupByIdAux_seen_congr ts
          ((acc ++ [t]).map Track.id) (t.id :: acc.map Track.id)
          (by intro x; simp [or_comm])
        rw [hcongr, List.append_assoc]
        rfl
  rw [aggregateDedup, dedupById, key l []]
  rfl

/-- Claim C2: when the per-query result lists are concatenated in original
query order and deduplicated by track id, a track id occurring in an earlier
query and again in a later query is kept exactly once, namely as the earlier
query's copy with all of its fields (in particular its origin tag); this holds
both for the dedup pass of the diversified selection and for the inline dedup
of the aggregation loop. -/
theorem dedup_first_query_wins (l₁ l₂ : List Track) (x : String) (t₀ : Track)
    (h : l₁.find? (fun t => t.id = x) = some t₀) :
    (dedupById (l₁ ++ l₂)).filter (fun t => t.id = x) = [t₀] ∧
    (aggregateDedup (l₁ ++ l₂)).filter (fun t => t.id = x) = [t₀] := by
  have hmain :
      (dedupById (l₁ ++ l₂)).filter (fun t => t.id = x) = [t₀] := by
    rw [dedupById, dedupByIdAux_filter_eq _ _ _ (by simp),
      List.find?_append, h]
    rfl
  exact ⟨hmain, by rw [aggregateDedup_eq_dedupById]; exact hmain⟩

def cexTrackA : Track :=
  { id := "id1", title := "Song One", artist := "Artist A", album := "Alb",
    popularity := 70, duration_ms := 201000, explicit := false,
    release_date := "2021-01-01", search_type := "genre:pop" }

def cexTrackB : Track :=
  { id := "id1", title := "Song One", artist := "Artist A", album := "Alb",
    popularity := 70, duration_ms := 201000, explicit := false,
    release_date := "2021-01-01", search_type := "pop hits" }

theorem dedup_first_query_wins_witness :
    (dedupById ([cexTrackA] ++ [cexTrackB])).filter
        (fun t => t.id = "id1") = [cexTrackA] ∧
    (aggregateDedup ([cexTrackA] ++ [cexTrackB])).filter
        (fun t => t.id = "id1") = [cexTrackA] :=
  dedup_first_query_wins [cexTrackA] [cexTrackB] "id1" cexTrackA (by decide)

/-- Claim C6: the fusion engine maps any three signals whose primary moods are
all neutral, whatever their confidences, to primary mood peaceful with
confidence exactly 0.2. -/
theorem combine_all_neutral (c₁ c₂ c₃ : ℚ) :
    combine_mood_analyses
        { primaryMood := "neutral", confidence := c₁ }
        { primaryMood := "neutral", confidence := c₂ }
        { primaryMood := "neutral", confidence := c₃ } =
      { primaryMood := "peaceful", confidence := 2/10 } := by
  rfl

theorem mem_mood_categories_speechiness :
    ∀ c ∈ mood_categories, c.base_features.speechiness = 1/10 := by
  intro c hc
  fin_cases hc <;> rfl

theorem baseFeaturesFor_speechiness (mood : String) :
    (baseFeaturesFor mood).speechiness = 1/10 := by
  rcases h : mood_categories.find? (fun c => c.name = mood) with _ | c
  · simp only [baseFeaturesFor, h]
    rfl
  · simp only [baseFeaturesFor, h]
    exact mem_mood_categories_speechiness c (List.mem_of_find?_eq_some h)

/-- Claim C9: for every mood label, every confidence and every jitter draw,
the synthesized feature dictionary has speechiness exactly 0.1, because every
base vector and the neutral baseline store 0.1 there and speechiness is not in
the jittered feature list. -/
theorem mood_to_spotify_features_speechiness (mood : String)
    (confidence : ℚ) (j : Jitter) :
    (mood_to_spotify_features mood confidence j).speechiness = 1/10 := by
  show blendFeature confidence (baseFeaturesFor mood).speechiness
      neutral_features.speechiness = 1/10
  rw [baseFeaturesFor_speechiness, blendFeature]
  show (1/10 : ℚ) * confidence + 1/10 * (1 - confidence) = 1/10
  ring

theorem aggregate_all_tracks_join (results : List (String × List SpotifyItem)) :
    aggregate_all_tracks results = (results.map queryContribution).flatten := by
  have key : ∀ (rs : List (String × List SpotifyItem)) (acc : List Track),
      rs.foldl (fun acc qr => acc ++ queryContribution qr) acc =
        acc ++ (rs.map queryContribution).flatten := by
    intro rs
    induction rs with
    | nil => intro acc; simp
    | cons qr rest ih =>
      intro acc
      simp only [List.foldl_cons, List.map_cons, List.flatten_cons, ih,
        List.append_assoc]
  rw [aggregate_all_tracks, key]
  rfl

/-- Claim C10: in the aggregation loop of the /recommendations endpoint every
query contributes at most 4 tracks to the aggregated candidate list (exactly
the first `min 4 n` of its `n` results), although each catalog search request
asks for up to `searchLimit = 8` results; the aggregated list handed to
diversification is the concatenation of these capped contributions. -/
theorem per_query_contribution_cap (results : List (String × List SpotifyItem))
    (qr : String × List SpotifyItem) (hqr : qr ∈ results) :
    (queryContribution qr).length = min 4 qr.2.length ∧
    (queryContribution qr).length ≤ 4 ∧
    aggregate_all_tracks results = (results.map queryContribution).flatten ∧
    searchLimit = 8 := by
  refine ⟨?_, ?_, aggregate_all_tracks_join results, rfl⟩
  · simp [queryContribution]
  · simp [queryContribution]

theorem per_query_contribution_cap_witness :
    (queryContribution ("genre:pop", [])).length = min 4 (0:ℕ) ∧
    (queryContribution ("genre:pop", [])).length ≤ 4 ∧
    aggregate_all_tracks [("genre:pop", [])] =
      ([("genre:pop", ([] : List SpotifyItem))].map queryContribution).flatten ∧
    searchLimit = 8 :=
  per_query_contribution_cap [("genre:pop", [])] ("genre:pop", []) (by simp)

/-! ## Ranking-engine theorems (C4) -/

theorem ranking_score_title_irrelevant (mood : String) (t : Track) (s : String) :
    ranking_score mood { t with title := s } = ranking_score mood t := rfl

def sadTitledTrack : Track :=
  { id := "cex-id", title := "sad song", artist := "Some Artist",
    album := "Some Album", popularity := 50, duration_ms := 200000,
    explicit := false, release_date := "2021-05-05",
    search_type := "genre:alternative" }

def plainTitledTrack : Track := { sadTitledTrack with title := "evening track" }

/-- Counterexample to claim C4 as stated: two candidates identical in every
field except the title, one of which contains the mood word "sad", receive
exactly the same score from `_rank_songs_by_characteristics` in
`routers/recommendations.py`; no -25 literal-mood-word penalty is applied, so
the non-"sad" candidate does not rank strictly higher. -/
theorem ranking_no_mood_word_penalty_cex :
    strContains (lowerStr sadTitledTrack.title) "sad" = true ∧
    strContains (lowerStr plainTitledTrack.title) "sad" = false ∧
    ranking_score "melancholic" sadTitledTrack =
      ranking_score "melancholic" plainTitledTrack ∧
    ranking_score "melancholic" sadTitledTrack ≠
      ranking_score "melancholic" plainTitledTrack - 25 := by
  refine ⟨by decide, by decide, rfl, ?_⟩
  have heq : ranking_score "melancholic" sadTitledTrack =
      ranking_score "melancholic" plainTitledTrack := rfl
  intro h
  rw [heq] at h
  linarith

/-- Claim C4 (amended): the ranking engine of `routers/recommendations.py`
never reads the title, so two candidates identical in every field except the
title (one containing a mood word such as "sad") receive exactly the same
score; the literal-mood-word penalty exists only in the legacy
`backend/main.py` variant of the ranker. -/
theorem ranking_score_ignores_title (mood : String) (t : Track)
    (s₁ s₂ : String) :
    ranking_score mood { t with title := s₁ } =
      ranking_score mood { t with title := s₂ } := rfl

/-! ## Search-parameter theorems (C5) -/

theorem lookupStr_mem {α : Type} :
    ∀ (l : List (String × α)) (k : String) (v : α),
      lookupStr l k = some v → (k, v) ∈ l := by
  intro l
  induction l with
  | nil => intro k v h; simp [lookupStr] at h
  | cons p rest ih =>
    intro k v h
    rw [lookupStr] at h
    by_cases hk : p.1 = k
    · rw [if_pos hk] at h
      rcases p with ⟨pk, pv⟩
      obtain rfl : pk = k := hk
      obtain rfl : pv = v := by injection h
      exact List.mem_cons_self _ _
    · rw [if_neg hk] at h
      exact List.mem_cons_of_mem _ (ih k v h)

theorem mood_specific_queries_len :
    ∀ kv ∈ mood_specific_queries, (kv.2 : List String).length = 2 := by
  decide

/-- Counterexample to claim C5 as stated: for the mood label `nature` the
query list does not end with 2 mood-specific popular-song queries, because
`mood_specific_queries` has no `nature` row and the builder appends the single
generic query `"popular music"` instead. -/
theorem build_search_parameters_nature_cex :
    (build_search_parameters "nature" "" []).queries =
      ["genre:folk", "genre:indie-folk", "acoustic nature",
       "folk popular", "popular music"] ∧
    lookupStr mood_specific_queries "nature" = none ∧
    (build_search_parameters "nature" "" []).queries.length = 5 := by
  refine ⟨by decide, by decide, by decide⟩

/-- Claim C5 (amended): for every mood, caption and genre-preference list the
query list of `_build_search_parameters` has at most 7 entries; when the mood
has a row in `mood_specific_queries` (happy, peaceful, melancholic, energetic,
romantic) the final 2 entries are exactly that row (appended after the scene
queries and the at-most-one user-genre query); for any other mood the single
generic query `"popular music"` is appended instead. -/
theorem build_search_parameters_queries (mood caption : String)
    (genre_prefs : List (String × ℚ)) :
    (build_search_parameters mood caption genre_prefs).queries.length ≤ 7 ∧
    (∀ ps, lookupStr mood_specific_queries mood = some ps →
      ps.length = 2 ∧
      ∃ pre, (build_search_parameters mood caption genre_prefs).queries =
        pre ++ ps) ∧
    (lookupStr mood_specific_queries mood = none →
      ∃ pre, (build_search_parameters mood caption genre_prefs).queries =
        pre ++ ["popular music"]) := by
  have hbase :
      (((lookupStr scene_based_strategies mood).getD
        ["genre:pop", "genre:dance-pop", "pop cheerful",
         "feel good hits", "upbeat popular", "sunny pop"]).take 4).length ≤ 4 := by
    simpa using Nat.min_le_left 4 _
  have huser :
      (if genre_prefs.isEmpty then ([] : List String)
       else
        match pickUserGenre mood genre_prefs with
        | some q => [q]
        | none => []).length ≤ 1 := by
    by_cases hp : genre_prefs.isEmpty
    · simp [hp]
    · rcases h : pickUserGenre mood genre_prefs with _ | q <;> simp [hp, h]
  have hspec :
      (((lookupStr mood_specific_queries mood).getD
        ["popular music"]).take 2).length ≤ 2 := by
    simpa using Nat.min_le_left 2 _
  have hlen :
      ((build_search_parameters mood caption genre_prefs).queries).length ≤ 7 := by
    rw [build_search_parameters]
    exact List.length_take_le _ _
  have hfull :
      (build_search_parameters mood caption genre_prefs).queries =
        ((lookupStr scene_based_strategies mood).getD
          ["genre:pop", "genre:dance-pop", "pop cheerful",
           "feel good hits", "upbeat popular", "sunny pop"]).take 4 ++
        (if genre_prefs.isEmpty then ([] : List String)
         else
          match pickUserGenre mood genre_prefs with
          | some q => [q]
          | none => []) ++
        ((lookupStr mood_specific_queries mood).getD ["popular music"]).take 2 := by
    rw [build_search_parameters]
    apply List.take_of_length_le
    calc (_ ++ _ ++ _ : List String).length ≤ 4 + 1 + 2 := by
          rw [List.length_append, List.length_append]
          exact Nat.add_le_add (Nat.add_le_add hbase huser) hspec
      _ ≤ 7 := by norm_num
  refine ⟨hlen, ?_, ?_⟩
  · intro ps hps
    have hlen2 : ps.length = 2 :=
      mood_specific_queries_len (mood, ps) (lookupStr_mem _ _ _ hps)
    refine ⟨hlen2,
      ⟨((lookupStr scene_based_strategies mood).getD
          ["genre:pop", "genre:dance-pop", "pop cheerful",
           "feel good hits", "upbeat popular", "sunny pop"]).take 4 ++
        (if genre_prefs.isEmpty then ([] : List String)
         else
          match pickUserGenre mood genre_prefs with
          | some q => [q]
          | none => []), ?_⟩⟩
    rw [hfull, hps]
    simp only [Option.getD_some]
    congr 1
    exact List.take_of_length_le (le_of_eq hlen2)
  · intro hnone
    refine
      ⟨((lookupStr scene_based_strategies mood).getD
          ["genre:pop", "genre:dance-pop", "pop cheerful",
           "feel good hits", "upbeat popular", "sunny pop"]).take 4 ++
        (if genre_prefs.isEmpty then ([] : List String)
         else
          match pickUserGenre mood genre_prefs with
          | some q => [q]
          | none => []), ?_⟩
    rw [hfull, hnone]
    rfl

theorem build_search_parameters_queries_witness :
    (build_search_parameters "happy" "" []).queries.length ≤ 7 ∧
    (["pop hits", "feel good popular"] : List String).length = 2 ∧
    ∃ pre, (build_search_parameters "happy" "" []).queries =
      pre ++ ["pop hits", "feel good popular"] := by
  have h := build_search_parameters_queries "happy" "" []
  have h2 := h.2.1 ["pop hits", "feel good popular"] (by decide)
  exact ⟨h.1, h2.1, h2.2⟩

/-! ## Fallback-response theorems (C1) -/

/-- Counterexample to claim C1 as stated: with a user profile whose genre
preferences contain no genre scored above 0.5, the auth-failure fallback of
the /recommendations endpoint returns `success = true` and a strategy
containing "fallback" but an empty recommendations list, because the
preference branch filters the quiz catalog by an empty top-genre set. -/
theorem fallback_empty_recommendations_cex :
    (get_fallback_recommendations "happy" [("pop", 2/5)] quiz_songs).success
        = true ∧
    (get_fallback_recommendations "happy" [("pop", 2/5)] quiz_songs).search_strategy
        = "fallback_local" ∧
    (get_fallback_recommendations "happy" [("pop", 2/5)] quiz_songs).recommendations
        = [] := by
  refine ⟨rfl, rfl, ?_⟩
  simp [get_fallback_recommendations, List.filter_cons,
    show ¬ ((2:ℚ)⁻¹ < 2/5) by norm_num]

theorem fallback_mood_song_count_ge :
    ∀ kv ∈ fallback_mood_song_count, 3 ≤ kv.2 := by
  decide

theorem quiz_songs_length : quiz_songs.length = 20 := by
  rfl

/-- Claim C1 (amended): when catalog authentication fails, the
/recommendations endpoint always answers `success = true` with a
`search_strategy` containing "fallback" (namely `fallback_local`); the
recommendations list is guaranteed non-empty when the user profile carries no
genre preferences (the random-sample branch draws at least 3 quiz songs), but
it can be empty when genre preferences are present and no quiz song matches a
genre scored above 0.5.  The `deck` argument stands for the random shuffle of
the quiz catalog drawn by `random.sample`. -/
theorem get_fallback_recommendations_spec (mood : String)
    (genre_prefs : List (String × ℚ)) (deck : List QuizSong)
    (hdeck : deck.Perm quiz_songs) :
    (get_fallback_recommendations mood genre_prefs deck).success = true ∧
    strContains
      (get_fallback_recommendations mood genre_prefs deck).search_strategy
      "fallback" = true ∧
    (genre_prefs = [] →
      (get_fallback_recommendations mood genre_prefs deck).recommendations
        ≠ []) := by
  refine ⟨rfl, ?_, ?_⟩
  · show strContains "fallback_local" "fallback" = true
    decide
  intro hp
  subst hp
  have hcount : 3 ≤ (lookupStr fallback_mood_song_count mood).getD 4 := by
    rcases h : lookupStr fallback_mood_song_count mood with _ | n
    · simp
    · simpa using
        fallback_mood_song_count_ge (mood, n) (lookupStr_mem _ _ _ h)
  have hdlen : deck.length = 20 := by
    rw [hdeck.length_eq, quiz_songs_length]
  show ((deck.take (min ((lookupStr fallback_mood_song_count mood).getD 4)
      quiz_songs.length)).map fallbackRecOfSong).take 6 ≠ []
  apply List.ne_nil_of_length_pos
  rw [List.length_take, List.length_map, List.length_take, hdlen,
    quiz_songs_length]
  omega

theorem get_fallback_recommendations_spec_witness :
    (get_fallback_recommendations "happy" [] quiz_songs).success = true ∧
    strContains
      (get_fallback_recommendations "happy" [] quiz_songs).search_strategy
      "fallback" = true ∧
    (get_fallback_recommendations "happy" [] quiz_songs).recommendations
      ≠ [] := by
  have h := get_fallback_recommendations_spec "happy" [] quiz_songs
    (List.Perm.refl _)
  exact ⟨h.1, h.2.1, h.2.2 rfl⟩

/-! ## Text-mood-scorer theorems (C7) -/

theorem bestByScore_mem (b : String × Nat × ℚ) (l : List (String × Nat × ℚ)) :
    bestByScore b l = b ∨ bestByScore b l ∈ l := by
  induction l generalizing b with
  | nil => left; rfl
  | cons x xs ih =>
    rw [bestByScore]
    rcases ih (if b.2.1 < x.2.1 then x else b) with h | h
    · rw [h]
      by_cases hc : b.2.1 < x.2.1
      · right; rw [if_pos hc]; exact List.mem_cons_self _ _
      · left; rw [if_neg hc]
    · right; exact List.mem_cons_of_mem _ h

theorem analyze_text_mood_cases (caption : String) :
    (∃ c ∈ mood_categories,
      analyze_text_mood caption =
        { primaryMood := c.name, confidence := textConfOf caption c } ∧
      0 < keywordScore caption c.keywords) ∨
    analyze_text_mood caption =
      { primaryMood := "neutral", confidence := 1/10 } := by
  rcases h : textScores caption with _ | ⟨x, xs⟩
  · right
    rw [analyze_text_mood, h]
  · have hred : analyze_text_mood caption =
        (if 0 < (bestByScore x xs).2.1 then
          { primaryMood := (bestByScore x xs).1,
            confidence := (bestByScore x xs).2.2 }
        else
          { primaryMood := "neutral", confidence := 1/10 } : MoodResult) := by
      rw [analyze_text_mood, h]
    have hmem : bestByScore x xs ∈ textScores caption := by
      rw [h]
      rcases bestByScore_mem x xs with h2 | h2
      · rw [h2]; exact List.mem_cons_self _ _
      · exact List.mem_cons_of_mem _ h2
    rw [textScores] at hmem
    rcases List.mem_map.mp hmem with ⟨c, hc, hbest⟩
    by_cases hpos : 0 < (bestByScore x xs).2.1
    · left
      refine ⟨c, hc, ?_, ?_⟩
      · rw [hred, if_pos hpos, ← hbest]
      · rw [← hbest] at hpos
        exact hpos
    · right
      rw [hred, if_neg hpos]

theorem nodup_map_inj {α β : Type} (f : α → β) :
    ∀ (l : List α), (l.map f).Nodup →
      ∀ a ∈ l, ∀ b ∈ l, f a = f b → a = b := by
  intro l
  induction l with
  | nil => intro _ a ha; simp at ha
  | cons x xs ih =>
    intro hnd a ha b hb hab
    rw [List.map_cons, List.nodup_cons] at hnd
    rcases List.mem_cons.mp ha with ha1 | ha2 <;>
      rcases List.mem_cons.mp hb with hb1 | hb2
    · rw [ha1, hb1]
    · exfalso
      apply hnd.1
      rw [← ha1, hab]
      exact List.mem_map_of_mem f hb2
    · exfalso
      apply hnd.1
      rw [← hb1, ← hab]
      exact List.mem_map_of_mem f ha2
    · exact ih hnd.2 a ha2 b hb2 hab

theorem mood_categories_names_nodup :
    (mood_categories.map MoodCategory.name).Nodup := by
  decide

theorem mood_categories_name_ne_neutral :
    ∀ c ∈ mood_categories, ¬ c.name = "neutral" := by
  decide

/-- Modelled from the spec claim of C7 (for comparison with the source
computation): count the distinct keywords of the label that occur in the
caption and divide by the size of the keyword set, both obtained by
deduplicating the keyword list. -/
def distinct_keyword_confidence (caption : String) (c : MoodCategory) : ℚ :=
  min (((c.keywords.dedup.filter (fun kw => strContains caption kw)).length : ℚ)
    / c.keywords.dedup.length) 1

/-- Counterexample to claim C7 as stated: for the caption "romantic" the
winning label is `romantic`, whose keyword list contains the word "romantic"
twice; the source counts it twice and reports 2/7, while the claimed
distinct-count formula gives 1/6. -/
theorem text_confidence_distinct_cex :
    (analyze_text_mood "romantic").primaryMood = "romantic" ∧
    (analyze_text_mood "romantic").confidence = 2/7 ∧
    distinct_keyword_confidence "romantic"
      (mood_categories.get ⟨4, by decide⟩) = 1/6 ∧
    (analyze_text_mood "romantic").confidence ≠
      distinct_keyword_confidence "romantic"
        (mood_categories.get ⟨4, by decide⟩) := by
  have h2 : (analyze_text_mood "romantic").confidence = 2/7 := by
    show min (((2:ℕ):ℚ) / ((7:ℕ):ℚ)) 1 = 2/7
    norm_num
  have h3 : distinct_keyword_confidence "romantic"
      (mood_categories.get ⟨4, by decide⟩) = 1/6 := by
    show min (((1:ℕ):ℚ) / ((6:ℕ):ℚ)) 1 = 1/6
    norm_num
  refine ⟨rfl, h2, h3, ?_⟩
  rw [h2, h3]
  norm_num

/-- Claim C7 (amended): the reported confidence of the winning label equals
`min(k / n, 1)` where `k` counts the matching entries of that label's keyword
list with multiplicity (the `romantic` list holds "romantic" twice, so it
counts twice) and `n` is the length of that list; when no label matches at
all, the primary mood is neutral and the confidence is 0.1. -/
theorem analyze_text_mood_confidence (caption : String) :
    (∀ c ∈ mood_categories,
      (analyze_text_mood caption).primaryMood = c.name →
      (analyze_text_mood caption).confidence =
        min ((keywordScore caption c.keywords : ℚ) / c.keywords.length) 1) ∧
    ((analyze_text_mood caption).primaryMood = "neutral" →
      (analyze_text_mood caption).confidence = 1/10) := by
  rcases analyze_text_mood_cases caption with ⟨c₀, hc₀, heq, _⟩ | heq
  · constructor
    · intro c hc hname
      rw [heq] at hname ⊢
      have hcc : c₀ = c :=
        nodup_map_inj MoodCategory.name mood_categories
          mood_categories_names_nodup c₀ hc₀ c hc hname
      rw [← hcc]
      rfl
    · intro hname
      rw [heq] at hname
      exact absurd hname (mood_categories_name_ne_neutral c₀ hc₀)
  · constructor
    · intro c hc hname
      rw [heq] at hname
      exact absurd hname.symm (mood_categories_name_ne_neutral c hc)
    · intro _
      rw [heq]

theorem analyze_text_mood_confidence_witness :
    (analyze_text_mood "joy").confidence =
      min ((keywordScore "joy"
          (mood_categories.get ⟨0, by decide⟩).keywords : ℚ) /
        (mood_categories.get ⟨0, by decide⟩).keywords.length) 1 :=
  (analyze_text_mood_confidence "joy").1
    (mood_categories.get ⟨0, by decide⟩)
    (mood_categories.get_mem _ _) rfl

/-! ## Genre-preference theorems (C8) -/

/-- The accumulated value stored for a genre, 0 when absent
(Python `genre_scores.get(genre, 0)`). -/
def scoreVal (scores : List (String × ℚ)) (g : String) : ℚ :=
  (lookupStr scores g).getD 0

theorem lookupStr_addCand (acc : List (String × ℚ)) (m : String) (v : ℚ)
    (g : String) :
    lookupStr (addCand acc m v) g =
      if g = m then some (scoreVal acc m + v) else lookupStr acc g := by
  induction acc with
  | nil =>
    by_cases hg : g = m
    · subst hg
      simp [addCand, lookupStr, scoreVal]
    · have hmg : ¬ (m = g) := fun h => hg h.symm
      simp [addCand, lookupStr, hg, hmg]
  | cons p rest ih =>
    rcases p with ⟨k, w⟩
    by_cases hk : k = m
    · subst hk
      by_cases hg : g = k
      · subst hg
        simp [addCand, lookupStr, scoreVal]
      · have hkg : ¬ (k = g) := fun h => hg h.symm
        simp [addCand, lookupStr, hg, hkg]
    · rw [addCand, if_neg hk]
      by_cases hg : g = k
      · have hgm : ¬ (g = m) := fun h => hk ((hg.symm.trans h : k = m))
        have hkg : k = g := hg.symm
        simp [lookupStr, hkg, hgm]
      · have hkg : ¬ (k = g) := fun h => hg h.symm
        simp only [lookupStr, if_neg hkg]
        rw [ih]
        by_cases hgm : g = m
        · subst hgm
          simp [scoreVal, lookupStr, if_neg hkg, hk]
        · simp [hgm]

theorem scoreVal_addCand (acc : List (String × ℚ)) (m : String) (v : ℚ)
    (g : String) :
    scoreVal (addCand acc m v) g =
      scoreVal acc g + if g = m then v else 0 := by
  rw [scoreVal, lookupStr_addCand]
  by_cases hg : g = m
  · subst hg
    simp
  · simp [hg, scoreVal]

theorem scoreVal_genres_fold (gs : List String) :
    ∀ (acc : List (String × ℚ)) (g : String),
      scoreVal (gs.foldl (fun a x => addCand a x 1) acc) g =
        scoreVal acc g + (gs.count g : ℚ) := by
  induction gs with
  | nil => intro acc g; simp
  | cons x rest ih =>
    intro acc g
    rw [List.foldl_cons, ih, scoreVal_addCand, List.count_cons]
    by_cases hg : g = x
    · subst hg
      simp only [if_pos rfl, beq_self_eq_true, if_true]
      push_cast
      ring
    · have hxg : ¬ (x = g) := fun h => hg h.symm
      simp [hg, hxg]

theorem scoreVal_songs_fold (songs : List QuizSong) :
    ∀ (acc : List (String × ℚ)) (g : String),
      scoreVal
          (songs.foldl
            (fun a s => s.genres.foldl (fun a2 x => addCand a2 x 1) a) acc) g =
        scoreVal acc g +
          ((((songs.map (fun s => s.genres.count g)).sum : ℕ)) : ℚ) := by
  induction songs with
  | nil => intro acc g; simp
  | cons s rest ih =>
    intro acc g
    rw [List.foldl_cons, ih, scoreVal_genres_fold, List.map_cons,
      List.sum_cons]
    push_cast
    ring

theorem keys_addCand (acc : List (String × ℚ)) (m : String) (v : ℚ) :
    (addCand acc m v).map Prod.fst =
      if m ∈ acc.map Prod.fst then acc.map Prod.fst
      else acc.map Prod.fst ++ [m] := by
  induction acc with
  | nil => simp [addCand]
  | cons p rest ih =>
    rcases p with ⟨k, w⟩
    by_cases hk : k = m
    · subst hk
      simp [addCand]
    · rw [addCand, if_neg hk]
      have : ¬ (m = k) := fun h => hk h.symm
      simp only [List.map_cons, List.mem_cons, this, false_or, ih]
      by_cases hm : m ∈ rest.map Prod.fst <;> simp [hm]

theorem nodup_keys_addCand (acc : List (String × ℚ)) (m : String) (v : ℚ)
    (h : (acc.map Prod.fst).Nodup) :
    ((addCand acc m v).map Prod.fst).Nodup := by
  rw [keys_addCand]
  by_cases hm : m ∈ acc.map Prod.fst
  · rw [if_pos hm]; exact h
  · rw [if_neg hm]
    rw [List.nodup_append]
    exact ⟨h, List.nodup_singleton m, by simpa using fun hmem => hm hmem⟩

theorem nodup_keys_genres_fold (gs : List String) :
    ∀ (acc : List (String × ℚ)), (acc.map Prod.fst).Nodup →
      ((gs.foldl (fun a x => addCand a x 1) acc).map Prod.fst).Nodup := by
  induction gs with
  | nil => intro acc h; exact h
  | cons x rest ih =>
    intro acc h
    exact ih (addCand acc x 1) (nodup_keys_addCand acc x 1 h)

theorem nodup_keys_songs_fold (songs : List QuizSong) :
    ∀ (acc : List (String × ℚ)), (acc.map Prod.fst).Nodup →
      ((songs.foldl
        (fun a s => s.genres.foldl (fun a2 x => addCand a2 x 1) a) acc).map
          Prod.fst).Nodup := by
  induction songs with
  | nil => intro acc h; exact h
  | cons s rest ih =>
    intro acc h
    exact ih _ (nodup_keys_genres_fold s.genres acc h)

theorem lookupStr_of_mem_nodup :
    ∀ (l : List (String × ℚ)), (l.map Prod.fst).Nodup →
      ∀ (k : String) (v : ℚ), (k, v) ∈ l → lookupStr l k = some v := by
  intro l
  induction l with
  | nil => intro _ k v h; simp at h
  | cons p rest ih =>
    intro hnd k v h
    rcases p with ⟨pk, pv⟩
    rw [List.map_cons, List.nodup_cons] at hnd
    rcases List.mem_cons.mp h with h1 | h2
    · injection h1 with h1a h1b
      subst h1a
      subst h1b
      simp [lookupStr]
    · rw [lookupStr]
      by_cases hk : pk = k
      · subst hk
        exfalso
        apply hnd.1
        have : Prod.fst (pk, v) ∈ rest.map Prod.fst :=
          List.mem_map_of_mem Prod.fst h2
        exact this
      · rw [if_neg hk]
        exact ih hnd.2 k v h2

theorem lookupStr_mapValues (f : ℚ → ℚ) :
    ∀ (l : List (String × ℚ)) (k : String),
      lookupStr (l.map (fun p => (p.1, f p.2))) k =
        (lookupStr l k).map f := by
  intro l
  induction l with
  | nil => intro k; rfl
  | cons p rest ih =>
    intro k
    rcases p with ⟨pk, pv⟩
    by_cases hk : pk = k
    · subst hk
      simp [lookupStr]
    · simp only [List.map_cons, lookupStr, if_neg hk]
      exact ih k

theorem foldl_max_init (ys : List ℚ) : ∀ b : ℚ, b ≤ ys.foldl max b := by
  induction ys with
  | nil => intro b; exact le_refl b
  | cons y rest ih =>
    intro b
    exact le_trans (le_max_left b y) (ih (max b y))

theorem foldl_max_mem_le (ys : List ℚ) :
    ∀ (b x : ℚ), x ∈ ys → x ≤ ys.foldl max b := by
  induction ys with
  | nil => intro b x h; simp at h
  | cons y rest ih =>
    intro b x h
    rcases List.mem_cons.mp h with rfl | h2
    · exact le_trans (le_max_right b x) (foldl_max_init rest (max b x))
    · exact ih (max b y) x h2

theorem foldl_max_mem (ys : List ℚ) :
    ∀ b : ℚ, ys.foldl max b ∈ b :: ys := by
  induction ys with
  | nil => intro b; simp
  | cons y rest ih =>
    intro b
    rw [List.foldl_cons]
    rcases List.mem_cons.mp (ih (max b y)) with h | h
    · rw [h]
      rcases max_choice b y with h2 | h2 <;> rw [h2]
      · exact List.mem_cons_self _ _
      · exact List.mem_cons_of_mem _ (List.mem_cons_self _ _)
    · exact List.mem_cons_of_mem _ (List.mem_cons_of_mem _ h)

theorem le_maxVals_of_mem (l : List ℚ) (x : ℚ) (h : x ∈ l) :
    x ≤ maxVals l := by
  rcases l with _ | ⟨y, ys⟩
  · simp at h
  · rw [maxVals]
    rcases List.mem_cons.mp h with rfl | h2
    · exact foldl_max_init ys x
    · exact foldl_max_mem_le ys y x h2

theorem maxVals_mem (l : List ℚ) (h : l ≠ []) : maxVals l ∈ l := by
  rcases l with _ | ⟨y, ys⟩
  · exact absurd rfl h
  · rw [maxVals]
    exact foldl_max_mem ys y

theorem likedAndDisliked_all_liked (ratings : List (String × Bool))
    (h : ∀ r ∈ ratings, r.2 = true) :
    likedAndDisliked ratings =
      (ratings.filterMap (fun r => quiz_songs.find? (fun s => s.id = r.1)),
        []) := by
  have key : ∀ (rs : List (String × Bool))
      (acc : List QuizSong × List QuizSong), (∀ r ∈ rs, r.2 = true) →
      rs.foldl
        (fun ld r =>
          match quiz_songs.find? (fun s => s.id = r.1) with
          | some s => if r.2 then (ld.1 ++ [s], ld.2) else (ld.1, ld.2 ++ [s])
          | none => ld) acc =
      (acc.1 ++ rs.filterMap (fun r => quiz_songs.find? (fun s => s.id = r.1)),
        acc.2) := by
    intro rs
    induction rs with
    | nil => intro acc _; simp
    | cons r rest ih =>
      intro acc hall
      rw [List.foldl_cons]
      have hr : r.2 = true := hall r (List.mem_cons_self _ _)
      rcases hfind : quiz_songs.find? (fun s => s.id = r.1) with _ | s
      · simp only [hfind]
        rw [ih acc (fun x hx => hall x (List.mem_cons_of_mem _ hx)),
          List.filterMap_cons, hfind]
      · simp only [hfind, hr, if_true]
        rw [ih _ (fun x hx => hall x (List.mem_cons_of_mem _ hx)),
          List.filterMap_cons, hfind]
        simp [List.append_assoc]
  rw [likedAndDisliked, key ratings ([], []) h]
  rfl

theorem sum_counts_eq_length (G : String) (songs : List QuizSong)
    (h : ∀ s ∈ songs, s.genres.count G = 1) :
    (songs.map (fun s => s.genres.count G)).sum = songs.length := by
  induction songs with
  | nil => rfl
  | cons s rest ih =>
    rw [List.map_cons, List.sum_cons, h s (List.mem_cons_self _ _),
      ih (fun x hx => h x (List.mem_cons_of_mem _ hx)), List.length_cons]
    omega

theorem sum_counts_le_length (g : String) (songs : List QuizSong)
    (h : ∀ s ∈ songs, s.genres.count g ≤ 1) :
    (songs.map (fun s => s.genres.count g)).sum ≤ songs.length := by
  induction songs with
  | nil => exact le_refl 0
  | cons s rest ih =>
    rw [List.map_cons, List.sum_cons, List.length_cons]
    have h1 := h s (List.mem_cons_self _ _)
    have h2 := ih (fun x hx => h x (List.mem_cons_of_mem _ hx))
    omega

theorem quiz_songs_genres_nodup : ∀ s ∈ quiz_songs, s.genres.Nodup := by
  decide

theorem lookupStr_map_max_div (M : ℚ) :
    ∀ (l : List (String × ℚ)) (k : String),
      lookupStr (l.map (fun gs => (gs.1, max 0 (gs.2 / M)))) k =
        (lookupStr l k).map (fun v => max 0 (v / M)) := by
  intro l
  induction l with
  | nil => intro k; rfl
  | cons p rest ih =>
    intro k
    rcases p with ⟨pk, pv⟩
    by_cases hk : pk = k
    · subst hk
      simp [lookupStr]
    · simp only [List.map_cons, lookupStr, if_neg hk]
      exact ih k

theorem lookup_genrePreferencesOf (scores : List (String × ℚ)) (k : String) :
    lookupStr (genrePreferencesOf scores) k =
      (lookupStr scores k).map
        (fun v => max 0 (v / maxVals (scores.map Prod.snd))) := by
  show lookupStr
      (scores.map
        (fun gs => (gs.1, max 0 (gs.2 / maxVals (scores.map Prod.snd))))) k = _
  exact lookupStr_map_max_div (maxVals (scores.map Prod.snd)) scores k

/-- Claim C8: for every non-empty rating list in which every rating is a like,
every rated id occurs in the quiz catalog, and genre G is carried by every
rated song, `calculate_preferences` assigns genre preference exactly 1.0
to G. -/
theorem all_liked_common_genre_pref_one (ratings : List (String × Bool))
    (G : String) (hne : ratings ≠ [])
    (hliked : ∀ r ∈ ratings, r.2 = true)
    (hfound : ∀ r ∈ ratings, ∃ s ∈ quiz_songs, s.id = r.1)
    (hG : ∀ r ∈ ratings, ∀ s ∈ quiz_songs, s.id = r.1 → G ∈ s.genres) :
    lookupStr (calculate_genre_preferences ratings) G = some 1 := by
  have hscores : calculate_genre_preferences ratings =
      genrePreferencesOf
        (genreScoresOf
          (ratings.filterMap (fun r => quiz_songs.find? (fun s => s.id = r.1)))
          []) := by
    rw [calculate_genre_preferences, likedAndDisliked_all_liked ratings hliked]
  set liked : List QuizSong :=
    ratings.filterMap (fun r => quiz_songs.find? (fun s => s.id = r.1))
    with hlikeddef
  have hmemL : ∀ s ∈ liked, s ∈ quiz_songs ∧ G ∈ s.genres := by
    intro s hs
    rcases List.mem_filterMap.mp hs with ⟨r, hr, hfind⟩
    have hmem := List.mem_of_find?_eq_some hfind
    have hid : s.id = r.1 := by
      have := List.find?_some hfind
      simpa using this
    exact ⟨hmem, hG r hr s hmem hid⟩
  have hlne : liked ≠ [] := by
    rcases hrat : ratings with _ | ⟨r, rest⟩
    · exact absurd hrat hne
    · rcases hfound r (by rw [hrat]; exact List.mem_cons_self _ _) with
        ⟨s, hs, hsid⟩
      have hsome : (quiz_songs.find? (fun u => u.id = r.1)).isSome := by
        rw [List.find?_isSome]
        exact ⟨s, hs, by simpa using hsid⟩
      rcases Option.isSome_iff_exists.mp hsome with ⟨s0, hs0⟩
      rw [hlikeddef, hrat, List.filterMap_cons, hs0]
      simp
  have hgs : genreScoresOf liked [] =
      liked.foldl
        (fun acc song => song.genres.foldl (fun a g => addCand a g 1) acc)
        [] := rfl
  have hSV : ∀ g, scoreVal (genreScoresOf liked []) g =
      ((((liked.map (fun s => s.genres.count g)).sum : ℕ)) : ℚ) := by
    intro g
    rw [hgs, scoreVal_songs_fold]
    simp [scoreVal, lookupStr]
  have hG1 : ∀ s ∈ liked, s.genres.count G = 1 := fun s hs =>
    List.count_eq_one_of_mem (quiz_songs_genres_nodup s (hmemL s hs).1)
      (hmemL s hs).2
  have hSVG : scoreVal (genreScoresOf liked []) G = (liked.length : ℚ) := by
    rw [hSV G, sum_counts_eq_length G liked hG1]
  have hLpos : 0 < liked.length := List.length_pos.mpr hlne
  have hknd : ((genreScoresOf liked []).map Prod.fst).Nodup := by
    rw [hgs]
    exact nodup_keys_songs_fold liked [] (by simp)
  have hvle : ∀ p ∈ genreScoresOf liked [], p.2 ≤ (liked.length : ℚ) := by
    intro p hp
    have hlk : lookupStr (genreScoresOf liked []) p.1 = some p.2 :=
      lookupStr_of_mem_nodup _ hknd p.1 p.2 (by simpa using hp)
    have hsv : scoreVal (genreScoresOf liked []) p.1 = p.2 := by
      rw [scoreVal, hlk]
      rfl
    rw [← hsv, hSV p.1]
    have hcle : ∀ s ∈ liked, s.genres.count p.1 ≤ 1 := fun s hs =>
      List.nodup_iff_count_le_one.mp
        (quiz_songs_genres_nodup s (hmemL s hs).1) p.1
    exact_mod_cast sum_counts_le_length p.1 liked hcle
  have hlkG : lookupStr (genreScoresOf liked []) G =
      some (liked.length : ℚ) := by
    rcases h : lookupStr (genreScoresOf liked []) G with _ | v
    · exfalso
      have hz : scoreVal (genreScoresOf liked []) G = 0 := by
        rw [scoreVal, h]
        rfl
      rw [hSVG] at hz
      have hposq : (0:ℚ) < (liked.length : ℚ) := by exact_mod_cast hLpos
      rw [hz] at hposq
      exact lt_irrefl 0 hposq
    · have hsv : scoreVal (genreScoresOf liked []) G = v := by
        rw [scoreVal, h]
        rfl
      rw [hsv] at hSVG
      first
      | exact h.trans (congrArg some hSVG)
      | exact congrArg some hSVG
  have hGmem : (G, (liked.length : ℚ)) ∈ genreScoresOf liked [] :=
    lookupStr_mem _ _ _ hlkG
  have hvalmem : ((liked.length : ℚ)) ∈ (genreScoresOf liked []).map Prod.snd :=
    List.mem_map_of_mem Prod.snd hGmem
  have hmax : maxVals ((genreScoresOf liked []).map Prod.snd) =
      (liked.length : ℚ) := by
    apply le_antisymm
    · have hne2 : (genreScoresOf liked []).map Prod.snd ≠ [] :=
        List.ne_nil_of_mem hvalmem
      rcases List.mem_map.mp (maxVals_mem _ hne2) with ⟨p, hp, hpe⟩
      rw [← hpe]
      exact hvle p hp
    · exact le_maxVals_of_mem _ _ hvalmem
  rw [hscores, lookup_genrePreferencesOf, hlkG, hmax]
  have hL0 : (liked.length : ℚ) ≠ 0 := by
    have : (0:ℚ) < (liked.length : ℚ) := by exact_mod_cast hLpos
    exact ne_of_gt this
  simp only [Option.map_some']
  rw [div_self hL0]
  norm_num

theorem all_liked_common_genre_pref_one_witness :
    lookupStr
      (calculate_genre_preferences [("4uLU6hMCjMI75M1A2tKUQC", true)])
      "pop" = some 1 :=
  all_liked_common_genre_pref_one [("4uLU6hMCjMI75M1A2tKUQC", true)] "pop"
    (by decide) (by decide) (by decide) (by decide)

/-! ## Diversification theorems (C3) -/

theorem groupTracks_nil : groupTracks [] = [] := rfl

theorem groupTracks_cons (g : String × List Track)
    (rest : List (String × List Track)) :
    groupTracks (g :: rest) = g.2 ++ groupTracks rest := rfl

theorem setGroup_not_found (key : String) (v : List Track) :
    ∀ (groups : List (String × List Track)),
      lookupStr groups key = none → setGroup groups key v = groups := by
  intro groups
  induction groups with
  | nil => intro _; rfl
  | cons g rest ih =>
    intro h
    rcases g with ⟨k, us⟩
    rw [lookupStr] at h
    by_cases hk : k = key
    · rw [if_pos hk] at h
      exact absurd h (by simp)
    · rw [if_neg hk] at h
      rw [setGroup, if_neg hk, ih h]

theorem groupTracks_decomp (key : String) (ts : List Track) :
    ∀ (groups : List (String × List Track)),
      lookupStr groups key = some ts →
      ∃ X Y, groupTracks groups = X ++ ts ++ Y ∧
        ∀ v, groupTracks (setGroup groups key v) = X ++ v ++ Y := by
  intro groups
  induction groups with
  | nil => intro h; exact absurd h (by simp [lookupStr])
  | cons g rest ih =>
    intro h
    rcases g with ⟨k, us⟩
    rw [lookupStr] at h
    by_cases hk : k = key
    · rw [if_pos hk] at h
      injection h with h
      subst h
      refine ⟨[], groupTracks rest, by simp [groupTracks_cons], ?_⟩
      intro v
      rw [setGroup, if_pos hk, groupTracks_cons]
      simp
    · rw [if_neg hk] at h
      rcases ih h with ⟨X, Y, h1, h2⟩
      refine ⟨us ++ X, Y, ?_, ?_⟩
      · rw [groupTracks_cons, h1]
        simp [List.append_assoc]
      · intro v
        rw [setGroup, if_neg hk, groupTracks_cons, h2 v]
        simp [List.append_assoc]

theorem pickEligible_some (final : List Track) :
    ∀ (ts : List Track) (t : Track) (rest : List Track),
      pickEligible final ts = some (t, rest) →
      ∃ P Q, ts = P ++ t :: Q ∧ rest = P ++ Q ∧
        artistCount final (lowerStr t.artist) < 2 := by
  intro ts
  induction ts with
  | nil =>
    intro t rest h
    exact absurd h (by simp [pickEligible])
  | cons u us ih =>
    intro t rest h
    rw [pickEligible] at h
    by_cases hu : artistCount final (lowerStr u.artist) < 2
    · rw [if_pos hu] at h
      injection h with h
      injection h with h1 h2
      subst h1
      subst h2
      exact ⟨[], us, rfl, rfl, hu⟩
    · rw [if_neg hu] at h
      rcases hrec : pickEligible final us with _ | p
      · rw [hrec] at h
        exact absurd h (by simp)
      · rcases p with ⟨u2, rest2⟩
        rw [hrec] at h
        injection h with h
        injection h with h1 h2
        subst h1
        subst h2
        rcases ih u2 rest2 hrec with ⟨P, Q, hPQ1, hPQ2, hcnt⟩
        refine ⟨u :: P, Q, ?_, ?_, hcnt⟩
        · rw [hPQ1]
          rfl
        · rw [hPQ2]
          rfl

theorem artistCount_append (final : List Track) (t : Track) (a : String) :
    artistCount (final ++ [t]) a =
      artistCount final a + (if lowerStr t.artist = a then 1 else 0) := by
  rw [artistCount, artistCount, List.filter_append, List.length_append]
  congr 1
  by_cases h : lowerStr t.artist = a <;> simp [h]

theorem move_perm (F X P Q Y : List Track) (t : Track) :
    ((F ++ [t]) ++ (X ++ (P ++ Q) ++ Y)).Perm
      (F ++ (X ++ (P ++ t :: Q) ++ Y)) := by
  rw [← Multiset.coe_eq_coe]
  simp only [← Multiset.coe_add, ← Multiset.cons_coe, ← Multiset.singleton_add,
    Multiset.coe_nil]
  abel

theorem drop_sublist (F X Y ts : List Track) :
    (F ++ (X ++ [] ++ Y)).Sublist (F ++ (X ++ ts ++ Y)) := by
  apply List.Sublist.append_left
  rw [List.append_nil, List.append_assoc]
  exact List.Sublist.append_left (List.sublist_append_right ts Y) X

/-- Invariant carried by the round-robin loop: at most 8 selected tracks, at
most 2 per lower-cased artist among them, and distinct ids across the
selection together with everything still held by the groups. -/
def RRInv (groups : List (String × List Track)) (final : List Track) : Prop :=
  final.length ≤ 8 ∧
  (∀ a : String, artistCount final a ≤ 2) ∧
  ((final ++ groupTracks groups).map Track.id).Nodup

theorem rrGuard_length (groups : List (String × List Track))
    (final : List Track) (h : rrGuard groups final = true) :
    final.length < 8 := by
  rw [rrGuard, Bool.and_eq_true] at h
  exact of_decide_eq_true h.1

theorem rrStep_inv (keys : List String) (groups : List (String × List Track))
    (final : List Track) (idx : Nat) (hlen : final.length < 8)
    (hinv : RRInv groups final) :
    RRInv (rrStep keys groups final idx).1 (rrStep keys groups final idx).2 := by
  rcases hinv with ⟨-, hart, hnd⟩
  rw [rrStep]
  rcases hts : lookupStr groups (keys.getD (idx % keys.length) "") with _ | ts
  · show RRInv (setGroup groups (keys.getD (idx % keys.length) "") []) final
    rw [setGroup_not_found _ _ groups hts]
    exact ⟨Nat.le_of_lt hlen, hart, hnd⟩
  · simp only [Option.getD_some]
    rcases groupTracks_decomp _ ts groups hts with ⟨X, Y, hXY, hset⟩
    rcases hpe : pickEligible final ts with _ | p
    · show RRInv (setGroup groups (keys.getD (idx % keys.length) "") []) final
      refine ⟨Nat.le_of_lt hlen, hart, ?_⟩
      rw [hset []]
      rw [hXY] at hnd
      exact List.Nodup.sublist
        (List.Sublist.map Track.id (drop_sublist final X Y ts)) hnd
    · rcases p with ⟨t, rest⟩
      show RRInv (setGroup groups (keys.getD (idx % keys.length) "") rest)
        (final ++ [t])
      rcases pickEligible_some final ts t rest hpe with ⟨P, Q, hts1, hrest, hcnt⟩
      refine ⟨?_, ?_, ?_⟩
      · rw [List.length_append, List.length_singleton]
        omega
      · intro a
        rw [artistCount_append]
        by_cases ha : lowerStr t.artist = a
        · rw [if_pos ha]
          rw [ha] at hcnt
          omega
        · rw [if_neg ha]
          have h2 := hart a
          omega
      · rw [hset rest, hrest]
        rw [hXY, hts1] at hnd
        have hperm := move_perm final X P Q Y t
        exact ((hperm.map Track.id).nodup_iff).mpr hnd

theorem rrLoop_inv (keys : List String) :
    ∀ (fuel : Nat) (groups : List (String × List Track))
      (final : List Track) (idx : Nat), RRInv groups final →
      (rrLoop keys fuel groups final idx).length ≤ 8 ∧
      (∀ a, artistCount (rrLoop keys fuel groups final idx) a ≤ 2) ∧
      ((rrLoop keys fuel groups final idx).map Track.id).Nodup := by
  intro fuel
  induction fuel with
  | zero =>
    intro groups final idx hinv
    rw [rrLoop]
    refine ⟨hinv.1, hinv.2.1, ?_⟩
    have h := hinv.2.2
    rw [List.map_append] at h
    exact h.of_append_left
  | succ fuel ih =>
    intro groups final idx hinv
    rw [rrLoop]
    by_cases hg : rrGuard groups final = true
    · rw [if_pos hg]
      exact ih _ _ _
        (rrStep_inv keys groups final idx (rrGuard_length groups final hg) hinv)
    · rw [if_neg hg]
      refine ⟨hinv.1, hinv.2.1, ?_⟩
      have h := hinv.2.2
      rw [List.map_append] at h
      exact h.of_append_left

theorem groupTracks_insertGroup (k : String) (t : Track) :
    ∀ (gs : List (String × List Track)),
      (groupTracks (insertGroup gs k t)).Perm (groupTracks gs ++ [t]) := by
  intro gs
  induction gs with
  | nil =>
    rw [insertGroup]
    exact List.Perm.refl _
  | cons g rest ih =>
    rcases g with ⟨k2, us⟩
    rw [insertGroup]
    by_cases hk : k2 = k
    · rw [if_pos hk, groupTracks_cons, groupTracks_cons]
      rw [← Multiset.coe_eq_coe]
      simp only [← Multiset.coe_add, ← Multiset.cons_coe,
        ← Multiset.singleton_add, Multiset.coe_nil]
      abel
    · rw [if_neg hk, groupTracks_cons, groupTracks_cons]
      refine (ih.append_left us).trans ?_
      rw [List.append_assoc]

theorem groupTracks_groupBy_perm (l : List Track) :
    (groupTracks (groupBySearchType l)).Perm l := by
  have key : ∀ (m : List Track) (gs : List (String × List Track)),
      (groupTracks
        (m.foldl (fun gs2 t => insertGroup gs2 t.search_type t) gs)).Perm
      (groupTracks gs ++ m) := by
    intro m
    induction m with
    | nil =>
      intro gs
      rw [List.foldl_nil, List.append_nil]
    | cons t rest ih =>
      intro gs
      rw [List.foldl_cons]
      refine (ih (insertGroup gs t.search_type t)).trans ?_
      refine ((groupTracks_insertGroup t.search_type t gs).append_right
        rest).trans ?_
      rw [List.append_assoc]
      exact List.Perm.refl _
  have h := key l []
  rw [groupTracks_nil, List.nil_append] at h
  exact h

theorem dedupByIdAux_ids_nodup :
    ∀ (l : List Track) (seen : List String),
      ((dedupByIdAux l seen).map Track.id).Nodup := by
  intro l
  induction l with
  | nil => intro seen; simp [dedupByIdAux]
  | cons t ts ih =>
    intro seen
    by_cases ht : t.id ∈ seen
    · rw [dedupByIdAux, if_pos ht]
      exact ih seen
    · rw [dedupByIdAux, if_neg ht, List.map_cons, List.nodup_cons]
      refine ⟨?_, ih (t.id :: seen)⟩
      intro hmem
      rcases List.mem_map.mp hmem with ⟨u, hu, hid⟩
      have hns := dedupByIdAux_id_not_seen ts (t.id :: seen) u hu
      exact hns (by rw [hid]; exact List.mem_cons_self _ _)

theorem insertDescBy_perm {α : Type} (key : α → ℚ) (x : α) :
    ∀ (l : List α), (insertDescBy key x l).Perm (x :: l) := by
  intro l
  induction l with
  | nil => exact List.Perm.refl _
  | cons y ys ih =>
    rw [insertDescBy]
    by_cases h : key y ≤ key x
    · rw [if_pos h]
    · rw [if_neg h]
      exact (ih.cons y).trans (List.Perm.swap x y ys)

theorem sortDescBy_perm {α : Type} (key : α → ℚ) :
    ∀ (l : List α), (sortDescBy key l).Perm l := by
  intro l
  induction l with
  | nil => exact List.Perm.refl _
  | cons x xs ih =>
    rw [sortDescBy]
    exact (insertDescBy_perm key x (sortDescBy key xs)).trans (ih.cons x)

theorem post_sort_take_inv (final : List Track)
    (h2 : ∀ a, artistCount final a ≤ 2)
    (h3 : (final.map Track.id).Nodup) :
    ((sortDescBy (fun t => (t.popularity : ℚ)) final).take 8).length ≤ 8 ∧
    (∀ a, artistCount
      ((sortDescBy (fun t => (t.popularity : ℚ)) final).take 8) a ≤ 2) ∧
    (((sortDescBy (fun t => (t.popularity : ℚ)) final).take 8).map
      Track.id).Nodup := by
  have hperm := sortDescBy_perm (fun t => (t.popularity : ℚ)) final
  have hsub : ((sortDescBy (fun t => (t.popularity : ℚ)) final).take 8).Sublist
      (sortDescBy (fun t => (t.popularity : ℚ)) final) := List.take_sublist 8 _
  refine ⟨List.length_take_le _ _, ?_, ?_⟩
  · intro a
    have hle := (hsub.filter (fun t => lowerStr t.artist = a)).length_le
    have heq := (hperm.filter (fun t => lowerStr t.artist = a)).length_eq
    have hfin := h2 a
    rw [artistCount] at hfin ⊢
    omega
  · have hnd2 : ((sortDescBy (fun t => (t.popularity : ℚ)) final).map
        Track.id).Nodup := ((hperm.map Track.id).nodup_iff).mpr h3
    exact List.Nodup.sublist (hsub.map Track.id) hnd2

/-- Claim C3: for every input list of tracks, `_diversified_track_selection`
returns at most 8 tracks, contains at most 2 tracks per artist (artist names
compared case-insensitively), and contains no two tracks with the same id. -/
theorem diversified_track_selection_invariants (all_tracks : List Track) :
    (diversified_track_selection all_tracks).length ≤ 8 ∧
    (∀ a : String, artistCount (diversified_track_selection all_tracks) a ≤ 2) ∧
    ((diversified_track_selection all_tracks).map Track.id).Nodup := by
  by_cases he : all_tracks.isEmpty
  · rw [diversified_track_selection, if_pos he]
    refine ⟨by simp, fun a => by simp [artistCount], by simp⟩
  · rw [diversified_track_selection, if_neg he]
    have hinit : RRInv (groupBySearchType (dedupById all_tracks)) [] := by
      refine ⟨by simp, fun a => by simp [artistCount], ?_⟩
      have hperm2 := groupTracks_groupBy_perm (dedupById all_tracks)
      have hnd : ((dedupById all_tracks).map Track.id).Nodup :=
        dedupByIdAux_ids_nodup all_tracks []
      have := ((hperm2.map Track.id).nodup_iff).mpr hnd
      simpa using this
    have hloop := rrLoop_inv
      ((groupBySearchType (dedupById all_tracks)).map Prod.fst)
      (((dedupById all_tracks).length +
        (groupBySearchType (dedupById all_tracks)).length + 9) *
        ((groupBySearchType (dedupById all_tracks)).length + 1))
      (groupBySearchType (dedupById all_tracks)) [] 0 hinit
    exact post_sort_take_inv _ hloop.2.1 hloop.2.2

end ImageToSong
